import Mathlib

/-!
# VMPK: MIDI routing and per-channel controller state (`src/vpiano.cpp`)

A shallow embedding of the MIDI core of `VPiano`: the input callback
`midiCallback`, the outbound message builders (`sendController`, `bender`,
`bankChange`, ...) and the per-channel controller store `m_ctlState`.

Conventions of the embedding

* A C `int` is an `Int`; `static_cast<unsigned char>` is reduction modulo 256
  (`toUChar`); an `unsigned char` is a `Nat` below 256.
* A MIDI message (`std::vector<unsigned char>`) is a `List Nat`.
* The output port is a log `midiout` of the messages handed to
  `m_midiout->sendMessage`, oldest first; the Qt event queue of the window is
  the list `posted` of the events handed to `QApplication::postEvent`.
* The arrays `m_ctlState`, `m_lastBank`, ... have `MIDICHANNELS` entries in the
  program; they are functions of the index here, and only the indexes
  `0 .. 15` correspond to a defined C++ execution.
* `QMap<int,int>` is a key-sorted association list.
-/

/-! ## Constants and helper operations of `mididefs.h` and `constants.h` -/

/-- Modelled from the spec: `mididefs.h` is not among the sources; the channel
is the low nibble of a status byte. -/
def MASK_CHANNEL : Nat := 0x0F

/-- Modelled from the spec: `mididefs.h` is not among the sources; the message
kind is the high nibble of a status byte. -/
def MASK_STATUS : Nat := 0xF0

/-- Modelled from the spec: `mididefs.h` is not among the sources; data bytes
are masked by bitwise AND with 0x7F. -/
def MASK_SAFETY : Nat := 0x7F

/-- Modelled from the spec: `mididefs.h` is not among the sources; Note Off is
`0x80 + ch` in the wire table. -/
def STATUS_NOTEOFF : Nat := 0x80

/-- Modelled from the spec: `mididefs.h` is not among the sources; Note On is
`0x90 + ch` in the wire table. -/
def STATUS_NOTEON : Nat := 0x90

/-- Modelled from the spec: `mididefs.h` is not among the sources; Controller
is `0xB0 + ch` in the wire table. -/
def STATUS_CONTROLLER : Nat := 0xB0

/-- Modelled from the spec: `mididefs.h` is not among the sources; Program
Change is `0xC0 + ch` in the wire table. -/
def STATUS_PROGRAM : Nat := 0xC0

/-- Modelled from the spec: `mididefs.h` is not among the sources; Pitch Bend
is `0xE0 + ch` in the wire table. -/
def STATUS_BENDER : Nat := 0xE0

/-- Modelled from the spec: `mididefs.h` is not among the sources; the fixed
midpoint offset that recentres a signed bend value is 8192. -/
def BENDER_MID : Int := 8192

/-- Modelled from the spec: `mididefs.h` is not among the sources; bank-select
MSB is controller 0 (standard MIDI code). -/
def CTL_MSB : Int := 0

/-- Modelled from the spec: `mididefs.h` is not among the sources; bank-select
LSB is controller 32 (standard MIDI code). -/
def CTL_LSB : Int := 32

/-- Modelled from the spec: `mididefs.h` is not among the sources; volume is
controller 7 (standard MIDI code). -/
def CTL_VOLUME : Int := 7

/-- Modelled from the spec: `mididefs.h` is not among the sources; pan is
controller 10 (standard MIDI code). -/
def CTL_PAN : Int := 10

/-- Modelled from the spec: `mididefs.h` is not among the sources; expression
is controller 11 (standard MIDI code). -/
def CTL_EXPRESSION : Int := 11

/-- Modelled from the spec: `mididefs.h` is not among the sources; "reset all
controllers" is controller 121 (standard MIDI code). -/
def CTL_RESET_ALL_CTL : Int := 121

/-- Modelled from the spec: `mididefs.h` is not among the sources; "all notes
off" is controller 123 (standard MIDI code). -/
def CTL_ALL_NOTES_OFF : Int := 123

/-- Modelled from the spec: `constants.h` is not among the sources; there are
16 MIDI channels, numbered 0 to 15. -/
def MIDICHANNELS : Nat := 16

/-- The conversion `static_cast<unsigned char>(x)` of a C `int`: the value
modulo 256. -/
def toUChar (x : Int) : Nat := (x % 256).toNat

/-- The C expression `x & mask` for an `int` `x` and a non-negative constant
`mask`: bitwise AND on the 32-bit two's-complement representation of `x`. The
result is non-negative because the sign bit of `mask` is clear. -/
def andInt (x : Int) (mask : Nat) : Int := (((x % 2 ^ 32).toNat &&& mask : Nat) : Int)

/-- Modelled from the spec: the macro `CALC_LSB` of `mididefs.h` is not among
the sources; `lsb = value & 0x7F`. -/
def CALC_LSB (x : Int) : Int := andInt x 0x7F

/-- Modelled from the spec: the macro `CALC_MSB` of `mididefs.h` is not among
the sources; `msb = (value >> 7) & 0x7F`, with `>>` the arithmetic shift. -/
def CALC_MSB (x : Int) : Int := andInt (x >>> (7 : Nat)) 0x7F

/-- The call `message.push_back(x)` on a `std::vector<unsigned char>`: the
appended element is `x` converted to `unsigned char`. -/
def push_back (message : List Nat) (x : Nat) : List Nat := message ++ [x % 256]

/-! ## `QMap<int,int>` -/

/-- A `QMap<int,int>`: an association list kept sorted by key, each key at most
once. -/
abbrev QMap := List (Int × Int)

namespace QMap

/-- The lookup `QMap::find(key)`: the stored value, or `none` for `end()`. -/
def find : QMap → Int → Option Int
  | [], _ => none
  | (k, v) :: t, key => if key = k then some v else find t key

/-- The test `QMap::contains(key)`. -/
def contains (m : QMap) (key : Int) : Bool := (find m key).isSome

/-- The assignment `map[key] = value` (`QMap::insert`): replaces the value of
an existing key, otherwise adds the key at its place in key order. -/
def insert : QMap → Int → Int → QMap
  | [], key, value => [(key, value)]
  | (k, v) :: t, key, value =>
    if key < k then (key, value) :: (k, v) :: t
    else if key = k then (key, value) :: t
    else (k, v) :: insert t key value

/-- The read `map[key]` on a non-const `QMap<int,int>`: returns the stored
value; a missing key is first inserted with the default value 0. -/
def subscript (m : QMap) (key : Int) : Int × QMap :=
  match find m key with
  | some v => (v, m)
  | none => (0, insert m key 0)

end QMap

/-- Replacement of entry `i` of one of the per-channel arrays. -/
def setAt {α : Type} (a : Int → α) (i : Int) (x : α) : Int → α :=
  fun j => if j = i then x else a j

/-! ## Collaborators: instrument metadata, widgets, decoded events -/

/-- The part of `Instrument` (`instrument.h`, not among the sources) that the
MIDI core reads: the bank-select method and the keys of `control()` in
iteration order (the labels are only shown in the GUI). -/
structure Instrument where
  bankSelMethod : Int
  control : List Int
deriving DecidableEq

/-- The value `QVariant::toInt()`: an invalid variant converts to 0. -/
def qvToInt (p : Option Int) : Int := p.getD 0

/-- A widget of the extra-controls tool bar, reduced to the properties the
slots read and write. `none` stands for an invalid `QVariant` (the property is
not set, or the widget class does not have it). `minimum` and `maximum` are the
range of a widget with a `value` property. `checkable` is the Qt property of a
button: a `QCheckBox` is checkable, a `QToolButton` is not unless it is made so,
and `setChecked` on a button that is not checkable changes nothing. -/
structure Widget where
  ctlNumber : Option Int
  value : Option Int
  checked : Option Bool
  checkable : Bool
  onValue : Option Int
  offValue : Option Int
  minimum : Int
  maximum : Int
  sysexData : List Nat
deriving DecidableEq

/-- The decoded events posted by `midiCallback` (`NoteOnEvent`, `NoteOffEvent`,
`ControllerEvent`, `BenderEvent`), with the payload given to the constructor. -/
inductive QEvent where
  | NoteOnEvent (note : Nat)
  | NoteOffEvent (note : Nat)
  | ControllerEvent (ctl : Nat) (val : Nat)
  | BenderEvent (value : Int)
deriving DecidableEq

/-- The state of a range widget after `setValue(val)`: Qt bounds the value to
the range of the widget. -/
def boundValue (minimum maximum val : Int) : Int := max minimum (min maximum val)

/-- Modelled from the spec: `mididefs.h` is not among the sources; the lowest
signed bend value is -8192. -/
def BENDER_MIN : Int := -8192

/-- Modelled from the spec: `mididefs.h` is not among the sources; the highest
signed bend value is 8191. -/
def BENDER_MAX : Int := 8191

/-- A call on the keyboard widget `ui.pianokeybd` (`pianokeybd.h`, not among
the sources) that shows a received note. -/
inductive KeybdCall where
  | showNoteOn (note : Int)
  | showNoteOff (note : Int)
deriving DecidableEq

/-! ## The state of `VPiano` -/

/-- The members of `VPiano` that the MIDI core reads and writes, the output
log and the posted-event queue. -/
structure VPiano where
  /-- selected channel, also the input filter (`getInputChannel`) -/
  m_channel : Int
  m_velocity : Int
  m_midiThru : Bool
  /-- active instrument, `none` for `NULL` -/
  m_ins : Option Instrument
  /-- controller store, one `QMap<int,int>` per channel -/
  m_ctlState : Int → QMap
  /-- controller values read from the settings, one map per channel -/
  m_ctlSettings : Int → QMap
  m_lastBank : Int → Int
  m_lastProg : Int → Int
  m_lastCtl : Int → Int
  /-- item data (controller numbers) of `m_comboControl` -/
  comboControl : List Int
  /-- current index of `m_comboControl`, -1 when there is none -/
  comboControlIndex : Int
  /-- value shown by the knob `m_Control` (range 0 to 127) -/
  m_Control : Int
  /-- widgets of `ui.toolBarExtra` -/
  toolBarExtra : List Widget
  /-- messages handed to `m_midiout->sendMessage`, oldest first -/
  midiout : List (List Nat)
  /-- events handed to `QApplication::postEvent`, oldest first -/
  posted : List QEvent
  /-- value shown by the slider `m_bender` (range `BENDER_MIN` to `BENDER_MAX`) -/
  m_bender : Int := 0
  /-- calls made on `ui.pianokeybd` to show received notes, oldest first -/
  pianokeybd : List KeybdCall := []

/-- The result of running `midiCallback`: it returns, or `std::out_of_range`
(thrown by `std::vector::at`) leaves the function; either way with the state
reached at that point. -/
inductive Outcome where
  | returned (s : VPiano)
  | out_of_range (s : VPiano)

/-- The state in which a run of `midiCallback` ended. -/
def Outcome.state : Outcome → VPiano
  | .returned s => s
  | .out_of_range s => s

namespace VPiano

/-- The function `VPiano::getInputChannel`. -/
def getInputChannel (s : VPiano) : Int := s.m_channel

/-- The function `VPiano::midiThru`: forwards the raw message when thru mode is
on. An `RtError` of the port is caught inside and changes nothing else. -/
def midiThru (s : VPiano) (message : List Nat) : VPiano :=
  if s.m_midiThru then { s with midiout := s.midiout ++ [message] } else s

/-- The function `VPiano::messageWrapper`: hands the message to the output
port. An `RtError` of the port is caught inside (status-bar text only). -/
def messageWrapper (s : VPiano) (message : List Nat) : VPiano :=
  { s with midiout := s.midiout ++ [message] }

/-- The call `QApplication::postEvent(instance, ev)`. -/
def postEvent (s : VPiano) (ev : QEvent) : VPiano :=
  { s with posted := s.posted ++ [ev] }

/-- The function `VPiano::sendController`. -/
def sendController (s : VPiano) (controller value : Int) : VPiano :=
  let message : List Nat := []
  let chan := toUChar s.m_channel
  let ctl := toUChar controller
  let val := toUChar value
  let message := push_back message (STATUS_CONTROLLER + (chan &&& MASK_CHANNEL))
  let message := push_back message (ctl &&& MASK_SAFETY)
  let message := push_back message (val &&& MASK_SAFETY)
  messageWrapper s message

/-- The function `VPiano::bender`. -/
def bender (s : VPiano) (value : Int) : VPiano :=
  let message : List Nat := []
  let v := value + BENDER_MID
  let chan := toUChar s.m_channel
  let lsb := toUChar (CALC_LSB v)
  let msb := toUChar (CALC_MSB v)
  let message := push_back message (STATUS_BENDER + (chan &&& MASK_CHANNEL))
  let message := push_back message lsb
  let message := push_back message msb
  messageWrapper s message

/-- The function `VPiano::sendSysex`: every `char` of the byte array is
appended as an `unsigned char`. -/
def sendSysex (s : VPiano) (data : List Nat) : VPiano :=
  messageWrapper s (data.foldl push_back [])

/-- The expression `(m_ins != NULL) ? m_ins->bankSelMethod() : 0` of
`VPiano::bankChange`. -/
def method (s : VPiano) : Int :=
  match s.m_ins with
  | some ins => ins.bankSelMethod
  | none => 0

/-- The function `VPiano::bankChange`. -/
def bankChange (s : VPiano) (bank : Int) : VPiano :=
  let method : Int := s.method
  let s1 :=
    if method = 0 then
      let lsb := CALC_LSB bank
      let msb := CALC_MSB bank
      sendController (sendController s CTL_MSB msb) CTL_LSB lsb
    else if method = 1 then sendController s CTL_MSB bank
    else if method = 2 then sendController s CTL_LSB bank
    else s
  { s1 with m_lastBank := setAt s1.m_lastBank s1.m_channel bank }

/-- The call `m_comboControl->itemData(index).toInt()`: an index outside the
list gives an invalid variant, hence 0. -/
def comboItemData (s : VPiano) (index : Int) : Int :=
  if index < 0 then 0 else qvToInt (s.comboControl.get? index.toNat)

/-- The function `VPiano::updateController`: shows the value on the knob when
the controller is the one selected in the combo box. -/
def updateController (s : VPiano) (ctl val : Int) : VPiano :=
  let index := s.comboControlIndex
  let controller := comboItemData s index
  if controller = ctl then { s with m_Control := boundValue 0 127 val } else s

/-- The call `w->setProperty("checked", b)` on a widget that has the property:
`QAbstractButton::setChecked`, which does nothing on a button that is not
checkable. -/
def setChecked (w : Widget) (b : Bool) : Widget :=
  if w.checkable then { w with checked := some b } else w

/-- The body of the loop of `VPiano::updateExtraController` for one widget. -/
def updateExtraWidget (ctl val : Int) (w : Widget) : Widget :=
  match w.ctlNumber with
  | none => w
  | some p =>
    if p = ctl then
      if w.value.isSome ∧ qvToInt w.value ≠ val then
        { w with value := some (boundValue w.minimum w.maximum val) }
      else if w.checked.isSome then
        setChecked w (decide (val ≥ qvToInt w.onValue))
      else w
    else w

/-- The function `VPiano::updateExtraController`, as far as the widgets go.
Signals that a widget emits when its property changes are not followed: a
`QSpinBox` of the extra controls has `valueChanged(int)` connected to
`slotExtraController`, so a spin box whose value this loop changes runs that
slot once more, which sends a further Controller message and writes the same
store entry (selected channel, `ctl`) before the caller writes it. The state
after this function therefore gives the widgets, not every message sent. -/
def updateExtraController (s : VPiano) (ctl val : Int) : VPiano :=
  { s with toolBarExtra := s.toolBarExtra.map (updateExtraWidget ctl val) }

/-- The assignment `m_ctlState[channel][ctl] = val`. -/
def setCtlState (s : VPiano) (channel ctl val : Int) : VPiano :=
  { s with m_ctlState := setAt s.m_ctlState channel ((s.m_ctlState channel).insert ctl val) }

/-- The function `VPiano::slotController` (the tool tip is not modelled). -/
def slotController (s : VPiano) (value : Int) : VPiano :=
  let index := s.comboControlIndex
  let controller := comboItemData s index
  let s := sendController s controller value
  let s := updateExtraController s controller value
  setCtlState s s.m_channel controller value

/-- The function `VPiano::slotExtraController`, `w` being the widget returned
by `sender()` (the tool tip is not modelled). -/
def slotExtraController (s : VPiano) (w : Widget) (value : Int) : VPiano :=
  match w.ctlNumber with
  | none => s
  | some controller =>
    let s := sendController s controller value
    let s := updateController s controller value
    setCtlState s s.m_channel controller value

/-- The function `VPiano::slotControlClicked`, `w` being the widget returned
by `sender()`. -/
def slotControlClicked (s : VPiano) (w : Widget) (boolValue : Bool) : VPiano :=
  match w.ctlNumber with
  | none => s
  | some controller =>
    if controller < 128 then
      let value := if boolValue then qvToInt w.onValue else qvToInt w.offValue
      let s := sendController s controller value
      let s := updateController s controller value
      setCtlState s s.m_channel controller value
    else
      sendSysex s w.sysexData

/-- The loop of `VPiano::initControllers` over the keys of `m_ins->control()`,
acting on the map of one channel. -/
def initControlsLoop (m : QMap) : List Int → QMap
  | [] => m
  | ctl :: rest =>
    let m :=
      if ctl = CTL_VOLUME then m.insert CTL_VOLUME 100
      else if ctl = CTL_PAN then m.insert CTL_PAN 64
      else if ctl = CTL_EXPRESSION then m.insert CTL_EXPRESSION 127
      else m.insert ctl 0
    initControlsLoop m rest

/-- The function `VPiano::initControllers`. -/
def initControllers (s : VPiano) (channel : Int) : VPiano :=
  match s.m_ins with
  | none => s
  | some ins =>
    { s with m_ctlState :=
        setAt s.m_ctlState channel (initControlsLoop (s.m_ctlState channel) ins.control) }

end VPiano

/-- The function `midiCallback` (`userData` is the window `s`). Each
`message->at(i)` beyond the end of the message throws `std::out_of_range`. -/
def midiCallback (s : VPiano) (message : List Nat) : Outcome :=
  let ev : Option QEvent := none
  let s := s.midiThru message
  match message.get? 0 with
  | none => .out_of_range s
  | some b0 =>
    let status := (b0 &&& MASK_STATUS) % 256
    let channel := (b0 &&& MASK_CHANNEL) % 256
    let channelFilter := toUChar s.getInputChannel
    let post (ev : Option QEvent) : Outcome :=
      match ev with
      | some e => .returned (s.postEvent e)
      | none => .returned s
    if channel = channelFilter then
      if status = STATUS_NOTEON ∨ status = STATUS_NOTEOFF then
        match message.get? 1 with
        | none => .out_of_range s
        | some midi_note =>
          match message.get? 2 with
          | none => .out_of_range s
          | some vel =>
            if status = STATUS_NOTEOFF ∨ vel = 0 then
              post (some (.NoteOffEvent midi_note))
            else
              post (some (.NoteOnEvent midi_note))
      else if status = STATUS_CONTROLLER then
        match message.get? 1 with
        | none => .out_of_range s
        | some ctl =>
          match message.get? 2 with
          | none => .out_of_range s
          | some val => post (some (.ControllerEvent ctl val))
      else if status = STATUS_BENDER then
        match message.get? 1 with
        | none => .out_of_range s
        | some b1 =>
          match message.get? 2 with
          | none => .out_of_range s
          | some b2 =>
            let value : Int := ((b1 : Int) + 0x80 * (b2 : Int)) - BENDER_MID
            post (some (.BenderEvent value))
      else post ev
    else post ev

/-- A window right after `readSettings` on empty settings, with no instrument
loaded, no extra control and nothing sent or received yet. -/
def VPiano.defaultState : VPiano where
  m_channel := 0
  m_velocity := 100
  m_midiThru := false
  m_ins := none
  m_ctlState := fun _ => []
  m_ctlSettings := fun _ => []
  m_lastBank := fun _ => -1
  m_lastProg := fun _ => 0
  m_lastCtl := fun _ => 1
  comboControl := []
  comboControlIndex := -1
  m_Control := 0
  toolBarExtra := []
  midiout := []
  posted := []

/-- The default window with channel `c` selected. -/
def VPiano.onChannel (c : Int) : VPiano := { VPiano.defaultState with m_channel := c }

/-- The default window with channel `c` selected and instrument `ins` loaded. -/
def VPiano.withInstrument (c : Int) (ins : Instrument) : VPiano :=
  { VPiano.defaultState with m_channel := c, m_ins := some ins }

/-- The store of `after` holds `v` at `(c, n)` and agrees with the store of
`before` on every other (channel, controller) entry, absent entries included. -/
def storeWrittenAt (before after : VPiano) (c n v : Int) : Prop :=
  (after.m_ctlState c).find n = some v ∧
  ∀ ch k, (ch ≠ c ∨ k ≠ n) → (after.m_ctlState ch).find k = (before.m_ctlState ch).find k

/-- A window with channel 2 selected and the volume controller (7) as the only
and current entry of the controller combo box. -/
def VPiano.volumeSelected : VPiano :=
  { VPiano.defaultState with m_channel := 2, comboControl := [7], comboControlIndex := 0 }

/-- A tool button of the extra-controls tool bar tagged with controller 7, on
value 100 and off value 0. -/
def Widget.volumeButton : Widget where
  ctlNumber := some 7
  value := none
  checked := some false
  checkable := false
  onValue := some 100
  offValue := some 0
  minimum := 0
  maximum := 0
  sysexData := []

/-! ## Notes, program change, extra controls, settings -/

/-- The function `VPiano::noteOn`. -/
def VPiano.noteOn (s : VPiano) (midiNote : Int) : VPiano :=
  let message : List Nat := []
  if andInt midiNote MASK_SAFETY = midiNote then
    let chan := toUChar s.m_channel
    let vel := toUChar s.m_velocity
    let message := push_back message (STATUS_NOTEON + (chan &&& MASK_CHANNEL))
    let message := push_back message (toUChar (andInt midiNote MASK_SAFETY))
    let message := push_back message (vel &&& MASK_SAFETY)
    s.messageWrapper message
  else s

/-- The function `VPiano::noteOff`. -/
def VPiano.noteOff (s : VPiano) (midiNote : Int) : VPiano :=
  let message : List Nat := []
  if andInt midiNote MASK_SAFETY = midiNote then
    let chan := toUChar s.m_channel
    let vel := toUChar s.m_velocity
    let message := push_back message (STATUS_NOTEOFF + (chan &&& MASK_CHANNEL))
    let message := push_back message (toUChar (andInt midiNote MASK_SAFETY))
    let message := push_back message (vel &&& MASK_SAFETY)
    s.messageWrapper message
  else s

/-- The function `VPiano::programChange`. -/
def VPiano.programChange (s : VPiano) (program : Int) : VPiano :=
  let message : List Nat := []
  let chan := toUChar s.m_channel
  let pgm := toUChar program
  let message := push_back message (STATUS_PROGRAM + (chan &&& MASK_CHANNEL))
  let message := push_back message (pgm &&& MASK_SAFETY)
  let s := s.messageWrapper message
  { s with m_lastProg := setAt s.m_lastProg s.m_channel program }

/-- One entry of `m_extraControls` as `ExtraControl::decodeString`
(`extracontrols.h`, not among the sources) decodes it; `fileData` is the content
of the file `fileName` as `readSysexDataFile` returns it. -/
structure ExtraControl where
  control : Int
  type : Int
  minValue : Int
  maxValue : Int
  defValue : Int
  fileData : List Nat
deriving DecidableEq

/-- The body of the loop of `VPiano::initExtraControllers` for one decoded
entry: the widget that is created and tagged, `none` when the type is unknown
(labels, sizes and styles are not modelled). -/
def VPiano.initExtraControl (s : VPiano) (e : ExtraControl) : Option Widget :=
  let value :=
    if (s.m_ctlState s.m_channel).contains e.control then
      ((s.m_ctlState s.m_channel).find e.control).getD 0
    else e.defValue
  if e.type = 0 then
    some { ctlNumber := some e.control, value := none, checked := some (decide (value ≠ 0)),
           checkable := true, onValue := some e.maxValue, offValue := some e.minValue,
           minimum := 0, maximum := 0, sysexData := [] }
  else if e.type = 1 ∨ e.type = 2 ∨ e.type = 3 then
    some { ctlNumber := some e.control,
           value := some (boundValue e.minValue e.maxValue value), checked := none,
           checkable := false, onValue := none, offValue := none,
           minimum := e.minValue, maximum := e.maxValue, sysexData := [] }
  else if e.type = 4 then
    some { ctlNumber := some e.control, value := none, checked := some false,
           checkable := false, onValue := some e.maxValue, offValue := some e.minValue,
           minimum := 0, maximum := 0, sysexData := [] }
  else if e.type = 5 then
    some { ctlNumber := some 255, value := none, checked := some false,
           checkable := false, onValue := none, offValue := none,
           minimum := 0, maximum := 0, sysexData := e.fileData }
  else none

/-- The function `VPiano::initExtraControllers`, `controls` being the decoded
entries of `m_extraControls`. -/
def VPiano.initExtraControllers (s : VPiano) (controls : List ExtraControl) : VPiano :=
  { s with toolBarExtra := s.toolBarExtra ++ controls.filterMap s.initExtraControl }

/-- The per-channel groups of the `QSettings` store: the group
`Controllers<chan>` (controller number to value, the keys being the numbers
printed in decimal) and the three values of the group `Instrument<chan>`,
`none` when the key is not stored. -/
structure Settings where
  controllers : Int → List (Int × Int)
  bank : Int → Option Int
  program : Int → Option Int
  controller : Int → Option Int

/-- The channel numbers `0 .. MIDICHANNELS - 1` in loop order. -/
def channels : List Int := (List.range MIDICHANNELS).map Int.ofNat

/-- The per-channel loop of `VPiano::writeSettings`, on the store cleared by
`settings.clear()`. -/
def VPiano.writeSettings (s : VPiano) : Settings where
  controllers := fun chan => if chan ∈ channels then s.m_ctlState chan else []
  bank := fun chan => if chan ∈ channels then some (s.m_lastBank chan) else none
  program := fun chan => if chan ∈ channels then some (s.m_lastProg chan) else none
  controller := fun chan => if chan ∈ channels then some (s.m_lastCtl chan) else none

/-- The body of the per-channel loop of `VPiano::readSettings`. -/
def VPiano.readSettingsChannel (settings : Settings) (s : VPiano) (chan : Int) : VPiano :=
  { s with
    m_lastBank := setAt s.m_lastBank chan ((settings.bank chan).getD (-1)),
    m_lastProg := setAt s.m_lastProg chan ((settings.program chan).getD 0),
    m_lastCtl := setAt s.m_lastCtl chan ((settings.controller chan).getD 1),
    m_ctlSettings := setAt s.m_ctlSettings chan
      ((settings.controllers chan).foldl (fun m kv => m.insert kv.1 kv.2)
        (s.m_ctlSettings chan)) }

/-- The per-channel loop of `VPiano::readSettings`. -/
def VPiano.readSettings (s : VPiano) (settings : Settings) : VPiano :=
  channels.foldl (VPiano.readSettingsChannel settings) s

/-- The inner loop of `VPiano::applyInitialSettings` over the entries of
`m_ctlSettings[ch]`, acting on `m_ctlState[ch]`: a saved value is written only
when `find` locates its key in the store. -/
def restoreLoop (store : QMap) : List (Int × Int) → QMap
  | [] => store
  | (key, value) :: rest =>
    let store := if (store.find key).isSome then store.insert key value else store
    restoreLoop store rest

/-- The body of the channel loop of `VPiano::applyInitialSettings`. -/
def VPiano.applyInitialSettingsChannel (s : VPiano) (ch : Int) : VPiano :=
  let s := s.initControllers ch
  { s with m_ctlState :=
      setAt s.m_ctlState ch (restoreLoop (s.m_ctlState ch) (s.m_ctlSettings ch)) }

/-- The function `VPiano::applyInitialSettings`: the channel loop, then the
selection of the last controller in the controller combo box (the bank and
program combo boxes are not part of the state; signals are not followed). -/
def VPiano.applyInitialSettings (s : VPiano) : VPiano :=
  let s := channels.foldl VPiano.applyInitialSettingsChannel s
  let idx := s.comboControl.findIdx (fun ctl => decide (ctl = s.m_lastCtl s.m_channel))
  if idx < s.comboControl.length then { s with comboControlIndex := (idx : Int) } else s

/-- The expression `m_ins->control()` guarded by `m_ins != NULL`: the
controllers the active instrument defines, none without an instrument. -/
def VPiano.definedControls (s : VPiano) : List Int :=
  match s.m_ins with
  | some ins => ins.control
  | none => []

/-- The keys of the map are strictly increasing, as in every `QMap`. -/
def QMap.keysSorted (m : QMap) : Prop := (m.map Prod.fst).Pairwise (· < ·)

/-- A sysex button of the extra controls: type 5, with a six-byte file. -/
def ExtraControl.sysexButton : ExtraControl where
  control := 0
  type := 5
  minValue := 0
  maxValue := 127
  defValue := 0
  fileData := [0xF0, 0x7E, 0x7F, 0x09, 0x01, 0xF7]

/-- A knob of the extra controls for controller 7 with the configured range
0 to 200. -/
def ExtraControl.wideKnob : ExtraControl where
  control := 7
  type := 1
  minValue := 0
  maxValue := 200
  defValue := 0
  fileData := []

/-- The widget that `initExtraControllers` creates for `ExtraControl.sysexButton`. -/
def Widget.sysexButton : Widget :=
  (VPiano.volumeSelected.initExtraControl ExtraControl.sysexButton).getD Widget.volumeButton

/-- The widget that `initExtraControllers` creates for `ExtraControl.wideKnob`. -/
def Widget.wideKnob : Widget :=
  (VPiano.volumeSelected.initExtraControl ExtraControl.wideKnob).getD Widget.volumeButton

/-- A previous session whose store of channel 0 holds 90 for controller 7 and
40 for controller 91. -/
def VPiano.previousSession : VPiano :=
  { VPiano.defaultState with m_ctlState := fun ch => if ch = 0 then [(7, 90), (91, 40)] else [] }

/-! ## Reset, consumption of decoded events -/

/-- The body of the extra-controllers loop of `VPiano::resetAllControllers`
for one widget: a tagged widget whose controller is in the store of the
selected channel shows the stored value. As in `updateExtraController`, the
`valueChanged` signal of a spin box is not followed. -/
def VPiano.resetExtraWidget (s : VPiano) (w : Widget) : Widget :=
  match w.ctlNumber with
  | none => w
  | some ctl =>
    if (s.m_ctlState s.m_channel).contains ctl then
      let val := ((s.m_ctlState s.m_channel).subscript ctl).1
      if w.value.isSome then
        { w with value := some (boundValue w.minimum w.maximum val) }
      else if w.checked.isSome then
        setChecked w (decide (val ≥ qvToInt w.onValue))
      else w
    else w

/-- The function `VPiano::resetAllControllers`. The read
`m_ctlState[m_channel][ctl]` is the subscript of a non-const `QMap`. -/
def VPiano.resetAllControllers (s : VPiano) : VPiano :=
  let s := s.sendController CTL_RESET_ALL_CTL 0
  let index := s.comboControlIndex
  let ctl := s.comboItemData index
  let read := (s.m_ctlState s.m_channel).subscript ctl
  let val := read.1
  let s := { s with m_ctlState := setAt s.m_ctlState s.m_channel read.2 }
  let s := s.initControllers s.m_channel
  let s := { s with comboControlIndex := index }
  let s := { s with m_Control := boundValue 0 127 val }
  { s with toolBarExtra := s.toolBarExtra.map s.resetExtraWidget }

/-- The function `VPiano::customEvent`, run on a dequeued event. -/
def VPiano.customEvent (s : VPiano) (event : QEvent) : VPiano :=
  match event with
  | .NoteOnEvent note => { s with pianokeybd := s.pianokeybd ++ [.showNoteOn note] }
  | .NoteOffEvent note => { s with pianokeybd := s.pianokeybd ++ [.showNoteOff note] }
  | .ControllerEvent c v =>
    let ctl : Int := c
    let val : Int := v
    let s := s.updateController ctl val
    let s := s.updateExtraController ctl val
    s.setCtlState s.m_channel ctl val
  | .BenderEvent value => { s with m_bender := boundValue BENDER_MIN BENDER_MAX value }

/-- A window on channel 0 whose instrument defines the volume controller (7)
only; the controller is selected in the combo box, the store holds 30 for it,
and the knob and a slider of the extra controls tagged 7 both show 30. -/
def VPiano.volumeLowered : VPiano :=
  { VPiano.defaultState with
    m_ins := some ⟨0, [7]⟩, comboControl := [7], comboControlIndex := 0,
    m_ctlState := fun ch => if ch = 0 then [(7, 30)] else [], m_Control := 30,
    toolBarExtra := [{ Widget.volumeButton with
      value := some 30, checked := none, onValue := none, offValue := none,
      minimum := 0, maximum := 127 }] }

/-! ## Input port connections -/

/-- A call on the `RtMidiIn` object `m_midiin`. -/
inductive InCall where
  | openPort (i : Int)
  | closePort
  | setCallback
  | cancelCallback
deriving DecidableEq

/-- The connection members of `VPiano` together with the state of the
`RtMidiIn` object behind `m_midiin` (`RtMidi.h` is not among the sources): the
object is reduced to whether its port is open and whether a callback is
installed, and `inCalls` lists the calls made on it, oldest first. -/
structure Connections where
  /-- `m_midiin != NULL` -/
  hasMidiin : Bool
  m_inputActive : Bool
  m_currentIn : Int
  m_currentOut : Int
  m_midiThru : Bool
  inputOpen : Bool
  callbackInstalled : Bool
  inCalls : List InCall

/-- What the set-up dialog and the ports answer during one run of
`applyConnections`, and which of the port calls that can fail throws `RtError`:
a call on the output port, `getPortCount` on the input, `openPort` on the
input. -/
structure MidiSetup where
  selectedOutput : Int
  selectedInput : Int
  nInPorts : Int
  inputIsEnabled : Bool
  thruIsEnabled : Bool
  outputThrows : Bool
  inputCountThrows : Bool
  openInputThrows : Bool

namespace Connections

/-- The call `m_midiin->cancelCallback()`. -/
def cancelCallback (k : Connections) : Connections :=
  { k with callbackInstalled := false, inCalls := k.inCalls ++ [.cancelCallback] }

/-- The call `m_midiin->closePort()`. -/
def closePort (k : Connections) : Connections :=
  { k with inputOpen := false, inCalls := k.inCalls ++ [.closePort] }

/-- The call `m_midiin->openPort(i)` when it succeeds. -/
def openPort (k : Connections) (i : Int) : Connections :=
  { k with inputOpen := true, inCalls := k.inCalls ++ [.openPort i] }

/-- The call `m_midiin->setCallback(&midiCallback, this)`. -/
def setCallback (k : Connections) : Connections :=
  { k with callbackInstalled := true, inCalls := k.inCalls ++ [.setCallback] }

/-- The function `VPiano::applyConnections`. An `RtError` leaves the `try`
block at the call that throws; the handler only shows a message. -/
def applyConnections (k : Connections) (d : MidiSetup) : Connections :=
  if d.outputThrows then k
  else
    let i := d.selectedOutput
    let k := { k with m_currentOut := i }
    if k.hasMidiin then
      if d.inputCountThrows then k
      else
        let nInPorts := d.nInPorts
        let i := d.selectedInput
        let k :=
          if k.m_inputActive ∧ i ≠ k.m_currentIn then
            let k := k.cancelCallback
            let k := { k with m_inputActive := false }
            if k.m_currentIn > -1 then k.closePort else k
          else k
        if 0 ≤ i ∧ i < nInPorts ∧ i ≠ k.m_currentIn ∧ d.inputIsEnabled then
          if d.openInputThrows then
            { k with inCalls := k.inCalls ++ [.openPort i] }
          else
            let k := k.openPort i
            let k := k.setCallback
            let k := { k with m_inputActive := true }
            { k with m_currentIn := i, m_midiThru := d.thruIsEnabled }
        else
          { k with m_currentIn := i, m_midiThru := d.thruIsEnabled }
    else k

/-- The destructor `VPiano::~VPiano`; `outputThrows` tells whether
`m_midiout->closePort()` throws, which skips the clean-up of the input. -/
def destructor (k : Connections) (outputThrows : Bool) : Connections :=
  if outputThrows then k
  else if k.hasMidiin then
    let k :=
      if k.m_inputActive then
        let k := k.cancelCallback
        { k with m_inputActive := false }
      else k
    if k.m_currentIn > -1 then k.closePort else k
  else k

/-- The connection state that `initMidi` leaves when an input exists and no
virtual port is opened: the callback is installed, no port is selected. -/
def afterInitMidi : Connections where
  hasMidiin := true
  m_inputActive := true
  m_currentIn := -1
  m_currentOut := 0
  m_midiThru := false
  inputOpen := false
  callbackInstalled := true
  inCalls := [.setCallback]

end Connections

/-- Whether a callback is installed after the calls, `cb` telling whether one
was installed before them. -/
def callbackAfter (cb : Bool) : List InCall → Bool
  | [] => cb
  | .setCallback :: t => callbackAfter true t
  | .cancelCallback :: t => callbackAfter false t
  | _ :: t => callbackAfter cb t

/-- No `closePort` in the calls is made while a callback is installed, `cb`
telling whether one was installed before them: every `closePort` comes after a
`cancelCallback` with no `setCallback` in between. -/
def noCloseWhileCallback (cb : Bool) : List InCall → Bool
  | [] => true
  | .setCallback :: t => noCloseWhileCallback true t
  | .cancelCallback :: t => noCloseWhileCallback false t
  | .closePort :: t => !cb && noCloseWhileCallback cb t
  | .openPort _ :: t => noCloseWhileCallback cb t

/-- The user accepts the set-up dialog with input `i` selected and the input
enabled or not; no port call fails. -/
def MidiSetup.select (i : Int) (enabled : Bool) : MidiSetup where
  selectedOutput := 0
  selectedInput := i
  nInPorts := 2
  inputIsEnabled := enabled
  thruIsEnabled := false
  outputThrows := false
  inputCountThrows := false
  openInputThrows := false

/-- The calls made on `m_midiin` since it was created never close the port while
a callback is installed, the flag `callbackInstalled` is what those calls leave,
and `m_inputActive` is true exactly when a callback is installed. -/
def Connections.consistent (k : Connections) : Prop :=
  noCloseWhileCallback false k.inCalls = true ∧
  callbackAfter false k.inCalls = k.callbackInstalled ∧
  k.m_inputActive = k.callbackInstalled

/-! ## Properties -/

/-! ### Bytes and masks -/

theorem toUChar_natCast (c : Nat) (h : c < 256) : toUChar (c : Int) = c := by
  unfold toUChar
  omega

theorem and_MASK_SAFETY (x : Nat) : x &&& MASK_SAFETY = x % 128 :=
  Nat.and_pow_two_sub_one_eq_mod x 7

theorem and_MASK_CHANNEL (x : Nat) : x &&& MASK_CHANNEL = x % 16 :=
  Nat.and_pow_two_sub_one_eq_mod x 4

theorem and_MASK_CHANNEL_lt (x : Nat) : x &&& MASK_CHANNEL < 16 := by
  rw [and_MASK_CHANNEL]
  omega

theorem status_nibble (k c : Nat) (hk : k < 16) (hc : c < 16) :
    (16 * k + c) &&& MASK_STATUS = 16 * k := by
  unfold MASK_STATUS
  revert c
  revert k
  decide

theorem channel_nibble (k c : Nat) (hc : c < 16) :
    (16 * k + c) &&& MASK_CHANNEL = c := by
  rw [and_MASK_CHANNEL]
  omega

theorem andInt_0x7F (x : Int) : andInt x 0x7F = x % 128 := by
  unfold andInt
  rw [show (0x7F : Nat) = 2 ^ 7 - 1 from rfl, Nat.and_pow_two_sub_one_eq_mod]
  omega

theorem CALC_LSB_eq (x : Int) : CALC_LSB x = x % 128 := andInt_0x7F x

theorem CALC_MSB_eq (x : Int) : CALC_MSB x = x / 128 % 128 := by
  unfold CALC_MSB
  rw [andInt_0x7F, Int.shiftRight_eq_div_pow]
  rfl

theorem status_of_statusByte (k c : Nat) (hk : k < 16) (hc : c < 16) :
    ((16 * k + c) &&& MASK_STATUS) % 256 = 16 * k := by
  rw [status_nibble k c hk hc]
  omega

theorem channel_of_statusByte (k c : Nat) (hc : c < 16) :
    ((16 * k + c) &&& MASK_CHANNEL) % 256 = c := by
  rw [channel_nibble k c hc]
  omega

/-! ### The message builders -/

theorem sendController_midiout (s : VPiano) (controller value : Int) :
    (s.sendController controller value).midiout =
      s.midiout ++ [[(STATUS_CONTROLLER + (toUChar s.m_channel &&& MASK_CHANNEL)) % 256,
        (toUChar controller &&& MASK_SAFETY) % 256, (toUChar value &&& MASK_SAFETY) % 256]] := rfl

theorem sendController_message (s : VPiano) (c n v : Nat) (hc : c < 16) (hn : n < 128)
    (hv : v < 128) (hs : s.m_channel = c) :
    (s.sendController n v).midiout = s.midiout ++ [[0xB0 + c, n, v]] := by
  rw [sendController_midiout, hs, toUChar_natCast c (by omega), toUChar_natCast n (by omega),
    toUChar_natCast v (by omega), and_MASK_CHANNEL, and_MASK_SAFETY, and_MASK_SAFETY]
  have h1 : (STATUS_CONTROLLER + c % 16) % 256 = 0xB0 + c := by
    unfold STATUS_CONTROLLER
    omega
  have h2 : n % 128 % 256 = n := by omega
  have h3 : v % 128 % 256 = v := by omega
  rw [h1, h2, h3]

theorem midiCallback_controller (r : VPiano) (c n v : Nat) (hc : c < 16)
    (hr : r.m_channel = c) :
    midiCallback r [0xB0 + c, n, v] =
      .returned ((r.midiThru [0xB0 + c, n, v]).postEvent (.ControllerEvent n v)) := by
  have hst : ((0xB0 + c) &&& MASK_STATUS) % 256 = 0xB0 := status_of_statusByte 11 c (by omega) hc
  have hch : ((0xB0 + c) &&& MASK_CHANNEL) % 256 = c := channel_of_statusByte 11 c hc
  have hf : toUChar (r.midiThru [0xB0 + c, n, v]).getInputChannel = c := by
    have : (r.midiThru [0xB0 + c, n, v]).m_channel = r.m_channel := by
      unfold VPiano.midiThru
      split <;> rfl
    unfold VPiano.getInputChannel
    rw [this, hr]
    exact toUChar_natCast c (by omega)
  simp [midiCallback, hst, hch, hf, STATUS_NOTEON, STATUS_NOTEOFF, STATUS_CONTROLLER]

theorem midiThru_m_channel (r : VPiano) (message : List Nat) :
    (r.midiThru message).m_channel = r.m_channel := by
  unfold VPiano.midiThru
  split <;> rfl

theorem midiThru_posted (r : VPiano) (message : List Nat) :
    (r.midiThru message).posted = r.posted := by
  unfold VPiano.midiThru
  split <;> rfl

theorem midiThru_midiout (r : VPiano) (message : List Nat) :
    (r.midiThru message).midiout = r.midiout ++ (if r.m_midiThru then [message] else []) := by
  unfold VPiano.midiThru
  split <;> simp

theorem midiThru_filter (r : VPiano) (message : List Nat) (c : Nat) (hc : c < 16)
    (hr : r.m_channel = c) : toUChar (r.midiThru message).getInputChannel = c := by
  unfold VPiano.getInputChannel
  rw [midiThru_m_channel, hr]
  exact toUChar_natCast c (by omega)

theorem postEvent_midiThru_posted (r : VPiano) (message : List Nat) (ev : QEvent) :
    ((r.midiThru message).postEvent ev).posted = r.posted ++ [ev] := by
  show (r.midiThru message).posted ++ [ev] = r.posted ++ [ev]
  rw [midiThru_posted]

theorem midiCallback_noteon (r : VPiano) (c n vel : Nat) (hc : c < 16)
    (hr : r.m_channel = c) :
    midiCallback r [0x90 + c, n, vel] =
      .returned ((r.midiThru [0x90 + c, n, vel]).postEvent
        (if vel = 0 then .NoteOffEvent n else .NoteOnEvent n)) := by
  have hst : ((0x90 + c) &&& MASK_STATUS) % 256 = 0x90 := status_of_statusByte 9 c (by omega) hc
  have hch : ((0x90 + c) &&& MASK_CHANNEL) % 256 = c := channel_of_statusByte 9 c hc
  by_cases hv : vel = 0
  · subst hv
    have hf := midiThru_filter r [0x90 + c, n, 0] c hc hr
    simp [midiCallback, hst, hch, hf, STATUS_NOTEON, STATUS_NOTEOFF]
  · have hf := midiThru_filter r [0x90 + c, n, vel] c hc hr
    simp [midiCallback, hst, hch, hf, STATUS_NOTEON, STATUS_NOTEOFF, hv]

theorem midiCallback_noteoff (r : VPiano) (c n vel : Nat) (hc : c < 16)
    (hr : r.m_channel = c) :
    midiCallback r [0x80 + c, n, vel] =
      .returned ((r.midiThru [0x80 + c, n, vel]).postEvent (.NoteOffEvent n)) := by
  have hst : ((0x80 + c) &&& MASK_STATUS) % 256 = 0x80 := status_of_statusByte 8 c (by omega) hc
  have hch : ((0x80 + c) &&& MASK_CHANNEL) % 256 = c := channel_of_statusByte 8 c hc
  have hf := midiThru_filter r [0x80 + c, n, vel] c hc hr
  simp [midiCallback, hst, hch, hf, STATUS_NOTEON, STATUS_NOTEOFF]

theorem midiCallback_bender (r : VPiano) (c b1 b2 : Nat) (hc : c < 16)
    (hr : r.m_channel = c) :
    midiCallback r [0xE0 + c, b1, b2] =
      .returned ((r.midiThru [0xE0 + c, b1, b2]).postEvent
        (.BenderEvent (((b1 : Int) + 0x80 * (b2 : Int)) - BENDER_MID))) := by
  have hst : ((0xE0 + c) &&& MASK_STATUS) % 256 = 0xE0 := status_of_statusByte 14 c (by omega) hc
  have hch : ((0xE0 + c) &&& MASK_CHANNEL) % 256 = c := channel_of_statusByte 14 c hc
  have hf := midiThru_filter r [0xE0 + c, b1, b2] c hc hr
  simp [midiCallback, hst, hch, hf, STATUS_NOTEON, STATUS_NOTEOFF, STATUS_CONTROLLER,
    STATUS_BENDER]

theorem bender_midiout (s : VPiano) (value : Int) :
    (s.bender value).midiout =
      s.midiout ++ [[(STATUS_BENDER + (toUChar s.m_channel &&& MASK_CHANNEL)) % 256,
        toUChar (CALC_LSB (value + BENDER_MID)) % 256,
        toUChar (CALC_MSB (value + BENDER_MID)) % 256]] := rfl

theorem bender_message (s : VPiano) (c : Nat) (b : Int) (hc : c < 16)
    (hs : s.m_channel = c) :
    (s.bender b).midiout =
      s.midiout ++ [[0xE0 + c, ((b + 8192) % 128).toNat, ((b + 8192) / 128 % 128).toNat]] := by
  rw [bender_midiout, hs, toUChar_natCast c (by omega), and_MASK_CHANNEL, CALC_LSB_eq,
    CALC_MSB_eq]
  have h1 : (STATUS_BENDER + c % 16) % 256 = 0xE0 + c := by
    unfold STATUS_BENDER
    omega
  have h2 : toUChar ((b + BENDER_MID) % 128) % 256 = ((b + 8192) % 128).toNat := by
    unfold toUChar BENDER_MID
    omega
  have h3 : toUChar ((b + BENDER_MID) / 128 % 128) % 256 = ((b + 8192) / 128 % 128).toNat := by
    unfold toUChar BENDER_MID
    omega
  rw [h1, h2, h3]

theorem midiCallback_state (s : VPiano) (message : List Nat) :
    (midiCallback s message).state = s.midiThru message ∨
      ∃ ev, (midiCallback s message).state = (s.midiThru message).postEvent ev := by
  unfold midiCallback
  simp only []
  repeat' split
  all_goals first
    | exact Or.inl rfl
    | exact Or.inr ⟨_, rfl⟩

theorem midiCallback_mismatch (s : VPiano) (c b0 : Nat) (rest : List Nat) (hc : c < 16)
    (hs : s.m_channel = c) (hne : b0 &&& MASK_CHANNEL ≠ c) :
    midiCallback s (b0 :: rest) = .returned (s.midiThru (b0 :: rest)) := by
  have hf := midiThru_filter s (b0 :: rest) c hc hs
  have hlt := and_MASK_CHANNEL_lt b0
  have hch : (b0 &&& MASK_CHANNEL) % 256 = b0 &&& MASK_CHANNEL := by omega
  simp [midiCallback, hf, hch, hne]

/-! ### Claims on the wire codec and the input dispatcher -/

/-- C1. Controller encode/decode round trip: with channel `c` in 0..15 selected,
controller number `n` and value `v` in 0..127, `sendController(n, v)` transmits
exactly the three bytes `[0xB0 + c, n, v]`; the status nibble of the first byte
is Controller and its channel nibble is `c`; and `midiCallback` on that message,
with input-filter channel `c`, returns having posted exactly one event,
`ControllerEvent(n, v)`. -/
theorem controller_encode_decode_round_trip (s r : VPiano) (c n v : Nat)
    (hc : c < 16) (hn : n < 128) (hv : v < 128)
    (hs : s.m_channel = c) (hr : r.m_channel = c) :
    (s.sendController n v).midiout = s.midiout ++ [[0xB0 + c, n, v]] ∧
    (0xB0 + c) &&& MASK_STATUS = STATUS_CONTROLLER ∧
    (0xB0 + c) &&& MASK_CHANNEL = c ∧
    ∃ r', midiCallback r [0xB0 + c, n, v] = .returned r' ∧
      r'.posted = r.posted ++ [.ControllerEvent n v] :=
  ⟨sendController_message s c n v hc hn hv hs,
    status_nibble 11 c (by omega) hc,
    channel_nibble 11 c hc,
    _, midiCallback_controller r c n v hc hr, postEvent_midiThru_posted r _ _⟩

theorem controller_encode_decode_round_trip_witness :
    (VPiano.onChannel 2).m_channel = (2 : Nat) ∧
    ((VPiano.onChannel 2).sendController (7 : Nat) (100 : Nat)).midiout
      = (VPiano.onChannel 2).midiout ++ [[0xB0 + 2, 7, 100]] ∧
    (0xB0 + 2) &&& MASK_STATUS = STATUS_CONTROLLER ∧
    (0xB0 + 2) &&& MASK_CHANNEL = 2 ∧
    ∃ r', midiCallback (VPiano.onChannel 2) [0xB0 + 2, 7, 100] = .returned r' ∧
      r'.posted = (VPiano.onChannel 2).posted ++ [.ControllerEvent 7 100] :=
  ⟨rfl, controller_encode_decode_round_trip (VPiano.onChannel 2) (VPiano.onChannel 2) 2 7 100
    (by decide) (by decide) (by decide) rfl rfl⟩

/-- C2. Pitch-bend round trip: with channel `c` in 0..15 selected and a bend
value `b` in [-8192, 8191], `bender(b)` transmits `[0xE0 + c, lsb, msb]` where
`lsb` and `msb` are the low and high 7-bit halves of `b + 8192`; and the
decoder of `midiCallback`, `(lsb + 128 * msb) - 8192`, gives back `b`: on that
message, with input-filter channel `c`, it posts exactly `BenderEvent(b)`. -/
theorem bender_round_trip (s r : VPiano) (c : Nat) (b : Int)
    (hc : c < 16) (hlo : -8192 ≤ b) (hhi : b ≤ 8191)
    (hs : s.m_channel = c) (hr : r.m_channel = c) :
    (s.bender b).midiout =
      s.midiout ++ [[0xE0 + c, ((b + 8192) % 128).toNat, ((b + 8192) / 128).toNat]] ∧
    ((b + 8192) % 128).toNat < 128 ∧ ((b + 8192) / 128).toNat < 128 ∧
    (((b + 8192) % 128).toNat : Int) + 128 * (((b + 8192) / 128).toNat : Int) - 8192 = b ∧
    ∃ r', midiCallback r [0xE0 + c, ((b + 8192) % 128).toNat, ((b + 8192) / 128).toNat]
        = .returned r' ∧
      r'.posted = r.posted ++ [.BenderEvent b] := by
  have hm : (b + 8192) / 128 % 128 = (b + 8192) / 128 := by omega
  refine ⟨?_, by omega, by omega, by omega, _, midiCallback_bender r c _ _ hc hr, ?_⟩
  · rw [bender_message s c b hc hs, hm]
  · rw [postEvent_midiThru_posted]
    have hb : (((b + 8192) % 128).toNat : Int) + 0x80 * (((b + 8192) / 128).toNat : Int)
        - BENDER_MID = b := by
      unfold BENDER_MID
      omega
    rw [hb]

theorem bender_round_trip_witness :
    (VPiano.onChannel 3).m_channel = (3 : Nat) ∧
    ((VPiano.onChannel 3).bender (-8192)).midiout = [[0xE3, 0, 0]] ∧
    ((VPiano.onChannel 3).bender 8191).midiout = [[0xE3, 127, 127]] ∧
    ∃ r', midiCallback (VPiano.onChannel 3) [0xE3, 127, 127] = .returned r' ∧
      r'.posted = [.BenderEvent 8191] :=
  ⟨rfl,
    (bender_round_trip (VPiano.onChannel 3) (VPiano.onChannel 3) 3 (-8192)
      (by decide) (by decide) (by decide) rfl rfl).1,
    (bender_round_trip (VPiano.onChannel 3) (VPiano.onChannel 3) 3 8191
      (by decide) (by decide) (by decide) rfl rfl).1,
    (bender_round_trip (VPiano.onChannel 3) (VPiano.onChannel 3) 3 8191
      (by decide) (by decide) (by decide) rfl rfl).2.2.2.2⟩

/-- C3. With channel `c` in 0..15 as the input filter, `midiCallback` on the
message `[0x90 + c, n, vel]` posts exactly one event: `NoteOffEvent(n)` when
`vel = 0` and `NoteOnEvent(n)` otherwise; on `[0x80 + c, n, vel]` it posts
`NoteOffEvent(n)` whatever `vel` is. -/
theorem note_messages_decode (r : VPiano) (c n vel : Nat) (hc : c < 16)
    (hr : r.m_channel = c) :
    (∃ r', midiCallback r [0x90 + c, n, vel] = .returned r' ∧
      r'.posted = r.posted ++ [if vel = 0 then .NoteOffEvent n else .NoteOnEvent n]) ∧
    (∃ r', midiCallback r [0x80 + c, n, vel] = .returned r' ∧
      r'.posted = r.posted ++ [.NoteOffEvent n]) :=
  ⟨⟨_, midiCallback_noteon r c n vel hc hr, postEvent_midiThru_posted r _ _⟩,
    ⟨_, midiCallback_noteoff r c n vel hc hr, postEvent_midiThru_posted r _ _⟩⟩

theorem note_messages_decode_witness :
    (VPiano.onChannel 4).m_channel = (4 : Nat) ∧
    (∃ r', midiCallback (VPiano.onChannel 4) [0x90 + 4, 60, 0] = .returned r' ∧
      r'.posted = (VPiano.onChannel 4).posted ++ [.NoteOffEvent 60]) ∧
    (∃ r', midiCallback (VPiano.onChannel 4) [0x80 + 4, 60, 0] = .returned r' ∧
      r'.posted = (VPiano.onChannel 4).posted ++ [.NoteOffEvent 60]) :=
  ⟨rfl, note_messages_decode (VPiano.onChannel 4) 4 60 0 (by decide) rfl⟩

/-- C4. Channel filter: with channel `c` in 0..15 selected, `midiCallback` on a
message of at least three bytes whose channel nibble `byte0 & 0x0F` is not `c`
returns without posting any event, whatever the status nibble and the data
bytes are. -/
theorem channel_filter_drops (s : VPiano) (c b0 b1 b2 : Nat) (rest : List Nat)
    (hc : c < 16) (hs : s.m_channel = c) (hne : b0 &&& MASK_CHANNEL ≠ c) :
    ∃ s', midiCallback s (b0 :: b1 :: b2 :: rest) = .returned s' ∧ s'.posted = s.posted :=
  ⟨_, midiCallback_mismatch s c b0 _ hc hs hne, midiThru_posted s _⟩

theorem channel_filter_drops_witness :
    (VPiano.onChannel 3).m_channel = (3 : Nat) ∧ 0x95 &&& MASK_CHANNEL ≠ 3 ∧
    ∃ s', midiCallback (VPiano.onChannel 3) [0x95, 60, 100] = .returned s' ∧
      s'.posted = (VPiano.onChannel 3).posted :=
  ⟨rfl, by decide,
    channel_filter_drops (VPiano.onChannel 3) 3 0x95 60 100 [] (by decide) rfl (by decide)⟩

/-- C5. MIDI thru: whatever the message is (empty, short, on or off the filter
channel) and however the run of `midiCallback` ends, the output has received
the message exactly once and unchanged when thru mode is enabled, and nothing
when it is disabled. The forwarding precedes the decoding: it has happened
also when the decoding leaves the function with `std::out_of_range`. -/
theorem midi_thru_forwarding (s : VPiano) (message : List Nat) :
    (midiCallback s message).state.midiout =
      s.midiout ++ (if s.m_midiThru then [message] else []) := by
  rcases midiCallback_state s message with h | ⟨ev, h⟩
  · rw [h, midiThru_midiout]
  · rw [h]
    exact midiThru_midiout s message

/-! ### The controller store -/

theorem QMap.find_insert (m : QMap) (k v key : Int) :
    (m.insert k v).find key = if key = k then some v else m.find key := by
  induction m with
  | nil => simp [QMap.insert, QMap.find]
  | cons p t ih =>
    obtain ⟨k', v'⟩ := p
    unfold QMap.insert
    by_cases h1 : k < k'
    · simp [h1, QMap.find]
    · by_cases h2 : k = k'
      · subst h2
        simp only [lt_self_iff_false, if_false, if_true, QMap.find]
        split <;> rfl
      · simp only [h1, h2, if_false, QMap.find, ih]
        by_cases h3 : key = k'
        · have : key ≠ k := fun h => h2 (h ▸ h3)
          simp [h3, Ne.symm h2]
        · simp [h3]

theorem setAt_same {α : Type} (a : Int → α) (i : Int) (x : α) : setAt a i x i = x := by
  simp [setAt]

theorem setAt_other {α : Type} (a : Int → α) (i j : Int) (x : α) (h : j ≠ i) :
    setAt a i x j = a j := by
  simp [setAt, h]

theorem storeWrittenAt_setCtlState (s t : VPiano) (c n v : Int)
    (h : t.m_ctlState = s.m_ctlState) :
    storeWrittenAt s (t.setCtlState c n v) c n v := by
  constructor
  · show (setAt t.m_ctlState c ((t.m_ctlState c).insert n v) c).find n = some v
    rw [setAt_same, QMap.find_insert, if_pos rfl]
  · intro ch k hne
    show (setAt t.m_ctlState c ((t.m_ctlState c).insert n v) ch).find k = _
    by_cases hch : ch = c
    · subst hch
      have hk : k ≠ n := by
        rcases hne with h1 | h1
        · exact absurd rfl h1
        · exact h1
      rw [setAt_same, QMap.find_insert, if_neg hk, h]
    · rw [setAt_other _ _ _ _ hch, h]

theorem updateController_m_ctlState (s : VPiano) (ctl val : Int) :
    (s.updateController ctl val).m_ctlState = s.m_ctlState := by
  unfold VPiano.updateController
  simp only []
  split <;> rfl

theorem updateController_m_channel (s : VPiano) (ctl val : Int) :
    (s.updateController ctl val).m_channel = s.m_channel := by
  unfold VPiano.updateController
  simp only []
  split <;> rfl

theorem storeWrittenAt_slotController (s : VPiano) (value : Int) :
    storeWrittenAt s (s.slotController value) s.m_channel
      (s.comboItemData s.comboControlIndex) value :=
  storeWrittenAt_setCtlState s _ _ _ _ rfl

theorem storeWrittenAt_slotExtraController (s : VPiano) (w : Widget) (n value : Int)
    (hw : w.ctlNumber = some n) :
    storeWrittenAt s (s.slotExtraController w value) s.m_channel n value := by
  unfold VPiano.slotExtraController
  rw [hw]
  simp only []
  rw [updateController_m_channel]
  exact storeWrittenAt_setCtlState s _ _ _ _ (updateController_m_ctlState _ _ _)

theorem storeWrittenAt_slotControlClicked (s : VPiano) (w : Widget) (n : Int)
    (boolValue : Bool) (hw : w.ctlNumber = some n) (hn : n < 128) :
    storeWrittenAt s (s.slotControlClicked w boolValue) s.m_channel n
      (if boolValue then qvToInt w.onValue else qvToInt w.offValue) := by
  unfold VPiano.slotControlClicked
  rw [hw]
  simp only [hn, if_true]
  rw [updateController_m_channel]
  exact storeWrittenAt_setCtlState s _ _ _ _ (updateController_m_ctlState _ _ _)

theorem find_initControlsLoop (l : List Int) (m : QMap) (k : Int) :
    (VPiano.initControlsLoop m l).find k =
      if k ∈ l then
        some (if k = CTL_VOLUME then 100 else if k = CTL_PAN then 64
          else if k = CTL_EXPRESSION then 127 else 0)
      else m.find k := by
  induction l generalizing m with
  | nil => simp [VPiano.initControlsLoop]
  | cons ctl rest ih =>
    unfold VPiano.initControlsLoop
    simp only []
    rw [ih]
    by_cases hmem : k ∈ rest
    · simp [hmem]
    · simp only [hmem, if_false, List.mem_cons, or_false]
      by_cases hk : k = ctl
      · subst hk
        simp only [if_true]
        split_ifs <;> simp_all [QMap.find_insert]
      · simp only [hk, if_false]
        split_ifs <;> simp_all [QMap.find_insert]

theorem initControllers_m_ctlState (s : VPiano) (ins : Instrument) (channel : Int)
    (hins : s.m_ins = some ins) :
    (s.initControllers channel).m_ctlState =
      setAt s.m_ctlState channel (VPiano.initControlsLoop (s.m_ctlState channel) ins.control) := by
  unfold VPiano.initControllers
  rw [hins]

/-! ### Claims on the controller store -/

/-- C6. After an outbound controller operation the controller store holds the
value `v` of the operation at (selected channel, `n`) and every other
(channel, controller) entry, absent ones included, is as before; this holds
for every channel, controller number and value, in particular for a channel in
0..15 and `n`, `v` in 0..127. Each operation is taken on its own:
`slotController(v)` for any `v`, with `n` the controller selected in the combo
box; `slotExtraController(v)` for any `v` from any widget tagged `n`, whatever
the combo box selects; `slotControlClicked` from any widget tagged `n` below
128, with `v` the on value of the widget when clicked true and its off value
when clicked false. -/
theorem outbound_controller_updates_store (s : VPiano) :
    (∀ v : Int,
      storeWrittenAt s (s.slotController v) s.m_channel
        (s.comboItemData s.comboControlIndex) v) ∧
    (∀ (w : Widget) (n v : Int), w.ctlNumber = some n →
      storeWrittenAt s (s.slotExtraController w v) s.m_channel n v) ∧
    (∀ (w : Widget) (n : Int) (boolValue : Bool), w.ctlNumber = some n → n < 128 →
      storeWrittenAt s (s.slotControlClicked w boolValue) s.m_channel n
        (if boolValue then qvToInt w.onValue else qvToInt w.offValue)) :=
  ⟨fun v => storeWrittenAt_slotController s v,
    fun w n v hw => storeWrittenAt_slotExtraController s w n v hw,
    fun w n boolValue hw hn => storeWrittenAt_slotControlClicked s w n boolValue hw hn⟩

theorem outbound_controller_updates_store_witness :
    ((VPiano.volumeSelected.slotController 100).m_ctlState 2).find 7 = some 100 ∧
    (((VPiano.onChannel 2).slotExtraController Widget.wideKnob 100).m_ctlState 2).find 7
      = some 100 ∧
    (((VPiano.onChannel 2).slotExtraController Widget.wideKnob 100).m_ctlState 2).find 8
      = ((VPiano.onChannel 2).m_ctlState 2).find 8 ∧
    (((VPiano.onChannel 2).slotControlClicked Widget.volumeButton true).m_ctlState 2).find 7
      = some 100 ∧
    (((VPiano.onChannel 2).slotControlClicked Widget.volumeButton false).m_ctlState 2).find 7
      = some 0 :=
  ⟨((outbound_controller_updates_store VPiano.volumeSelected).1 100).1,
    ((outbound_controller_updates_store (VPiano.onChannel 2)).2.1
      Widget.wideKnob 7 100 rfl).1,
    ((outbound_controller_updates_store (VPiano.onChannel 2)).2.1
      Widget.wideKnob 7 100 rfl).2 2 8 (Or.inr (by decide)),
    ((outbound_controller_updates_store (VPiano.onChannel 2)).2.2
      Widget.volumeButton 7 true rfl (by decide)).1,
    ((outbound_controller_updates_store (VPiano.onChannel 2)).2.2
      Widget.volumeButton 7 false rfl (by decide)).1⟩

/-- C7. Channel reset defaults: with an instrument loaded whose control set is
`S = ins.control`, after `initControllers(ch)` the store of channel `ch` holds
100 for controller 7 (volume), 64 for controller 10 (pan), 127 for controller
11 (expression), each only if it is in `S`, and 0 for every other controller of
`S`; a controller that is not in `S` keeps its previous value or stays absent;
and the maps of all other channels are unchanged. -/
theorem initControllers_defaults (s : VPiano) (ins : Instrument) (ch : Int)
    (hins : s.m_ins = some ins) :
    (7 ∈ ins.control → ((s.initControllers ch).m_ctlState ch).find 7 = some 100) ∧
    (10 ∈ ins.control → ((s.initControllers ch).m_ctlState ch).find 10 = some 64) ∧
    (11 ∈ ins.control → ((s.initControllers ch).m_ctlState ch).find 11 = some 127) ∧
    (∀ k, k ∈ ins.control → k ≠ 7 → k ≠ 10 → k ≠ 11 →
      ((s.initControllers ch).m_ctlState ch).find k = some 0) ∧
    (∀ k, k ∉ ins.control →
      ((s.initControllers ch).m_ctlState ch).find k = (s.m_ctlState ch).find k) ∧
    (∀ ch', ch' ≠ ch → (s.initControllers ch).m_ctlState ch' = s.m_ctlState ch') := by
  rw [initControllers_m_ctlState s ins ch hins]
  refine ⟨?_, ?_, ?_, ?_, ?_, ?_⟩
  · intro h
    rw [setAt_same, find_initControlsLoop, if_pos h]
    rfl
  · intro h
    rw [setAt_same, find_initControlsLoop, if_pos h]
    rfl
  · intro h
    rw [setAt_same, find_initControlsLoop, if_pos h]
    rfl
  · intro k h h7 h10 h11
    rw [setAt_same, find_initControlsLoop, if_pos h]
    simp [CTL_VOLUME, CTL_PAN, CTL_EXPRESSION, h7, h10, h11]
  · intro k h
    rw [setAt_same, find_initControlsLoop, if_neg h]
  · intro ch' h
    rw [setAt_other _ _ _ _ h]

theorem initControllers_defaults_witness :
    (((VPiano.withInstrument 0 ⟨0, [1, 7, 10, 11, 64]⟩).initControllers 0).m_ctlState 0).find 7
      = some 100 ∧
    (((VPiano.withInstrument 0 ⟨0, [1, 7, 10, 11, 64]⟩).initControllers 0).m_ctlState 0).find 64
      = some 0 ∧
    (((VPiano.withInstrument 0 ⟨0, [1, 7, 10, 11, 64]⟩).initControllers 0).m_ctlState 0).find 91
      = ((VPiano.withInstrument 0 ⟨0, [1, 7, 10, 11, 64]⟩).m_ctlState 0).find 91 :=
  have h := initControllers_defaults (VPiano.withInstrument 0 ⟨0, [1, 7, 10, 11, 64]⟩)
    ⟨0, [1, 7, 10, 11, 64]⟩ 0 rfl
  ⟨h.1 (by decide), h.2.2.2.1 64 (by decide) (by decide) (by decide) (by decide),
    h.2.2.2.2.1 91 (by decide)⟩

/-! ### Bank select -/

theorem bankChange_midiout (s : VPiano) (bank : Int) :
    (s.bankChange bank).midiout =
      if s.method = 0 then
        ((s.sendController CTL_MSB (CALC_MSB bank)).sendController CTL_LSB (CALC_LSB bank)).midiout
      else if s.method = 1 then (s.sendController CTL_MSB bank).midiout
      else if s.method = 2 then (s.sendController CTL_LSB bank).midiout
      else s.midiout := by
  unfold VPiano.bankChange
  simp only []
  split_ifs <;> rfl

theorem bankChange_m_lastBank (s : VPiano) (bank : Int) :
    (s.bankChange bank).m_lastBank = setAt s.m_lastBank s.m_channel bank := by
  unfold VPiano.bankChange
  simp only []
  split_ifs <;> rfl

theorem sendController_byte (s : VPiano) (c : Nat) (controller value : Int) (hc : c < 16)
    (hs : s.m_channel = c) :
    (s.sendController controller value).midiout =
      s.midiout ++ [[0xB0 + c, (controller % 128).toNat, (value % 128).toNat]] := by
  rw [sendController_midiout, hs, toUChar_natCast c (by omega), and_MASK_CHANNEL,
    and_MASK_SAFETY, and_MASK_SAFETY]
  have h1 : (STATUS_CONTROLLER + c % 16) % 256 = 0xB0 + c := by
    unfold STATUS_CONTROLLER
    omega
  have h2 : toUChar controller % 128 % 256 = (controller % 128).toNat := by
    unfold toUChar
    omega
  have h3 : toUChar value % 128 % 256 = (value % 128).toNat := by
    unfold toUChar
    omega
  rw [h1, h2, h3]

/-- C8. Bank select method 0: with channel `c` in 0..15 selected and the
bank-select method 0 (also when no instrument is loaded), `bankChange(bank)`
for a bank in 0..16383 transmits exactly two messages, first
`[0xB0 + c, 0, msb]` (controller 0) and then `[0xB0 + c, 32, lsb]`
(controller 32), where `msb = bank / 128` and `lsb = bank % 128` are both in
0..127 and `128 * msb + lsb = bank`. -/
theorem bankChange_method_zero (s : VPiano) (c bank : Nat) (hc : c < 16)
    (hb : bank < 16384) (hs : s.m_channel = c) (hm : s.method = 0) :
    (s.bankChange bank).midiout =
      s.midiout ++ [[0xB0 + c, 0, bank / 128], [0xB0 + c, 32, bank % 128]] ∧
    bank / 128 < 128 ∧ bank % 128 < 128 ∧ 128 * (bank / 128) + bank % 128 = bank := by
  refine ⟨?_, by omega, by omega, by omega⟩
  rw [bankChange_midiout, if_pos hm,
    sendController_byte (s.sendController CTL_MSB (CALC_MSB bank)) c _ _ hc hs,
    sendController_byte s c _ _ hc hs, CALC_MSB_eq, CALC_LSB_eq]
  have h1 : ((bank : Int) / 128 % 128 % 128).toNat = bank / 128 := by omega
  have h2 : ((bank : Int) % 128 % 128).toNat = bank % 128 := by omega
  have h3 : (CTL_MSB % 128).toNat = 0 := by decide
  have h4 : (CTL_LSB % 128).toNat = 32 := by decide
  rw [h1, h2, h3, h4]
  simp

theorem bankChange_method_zero_witness :
    ((VPiano.onChannel 5).bankChange (200 : Nat)).midiout
      = (VPiano.onChannel 5).midiout ++ [[0xB0 + 5, 0, 1], [0xB0 + 5, 32, 72]] :=
  (bankChange_method_zero (VPiano.onChannel 5) 5 200 (by decide) (by decide) rfl rfl).1

/-- C9. Bank select dispatch by method: with channel `c` in 0..15 selected,
`bankChange(bank)` transmits exactly one Controller message numbered 0
(bank-select MSB) under method 1, exactly one Controller message numbered 32
(bank-select LSB) under method 2, and no message under any method 3 or above.
The value byte of the one message is `bank` masked to seven bits. -/
theorem bankChange_dispatch (s : VPiano) (c : Nat) (bank : Int) (hc : c < 16)
    (hs : s.m_channel = c) :
    (s.method = 1 →
      (s.bankChange bank).midiout = s.midiout ++ [[0xB0 + c, 0, (bank % 128).toNat]]) ∧
    (s.method = 2 →
      (s.bankChange bank).midiout = s.midiout ++ [[0xB0 + c, 32, (bank % 128).toNat]]) ∧
    (3 ≤ s.method → (s.bankChange bank).midiout = s.midiout) := by
  refine ⟨?_, ?_, ?_⟩
  · intro hm
    rw [bankChange_midiout, if_neg (by omega), if_pos hm, sendController_byte s c _ _ hc hs]
    rfl
  · intro hm
    rw [bankChange_midiout, if_neg (by omega), if_neg (by omega), if_pos hm,
      sendController_byte s c _ _ hc hs]
    rfl
  · intro hm
    rw [bankChange_midiout, if_neg (by omega), if_neg (by omega), if_neg (by omega)]

theorem bankChange_dispatch_witness :
    ((VPiano.withInstrument 5 ⟨1, []⟩).bankChange 200).midiout = [[0xB5, 0, 72]] ∧
    ((VPiano.withInstrument 5 ⟨2, []⟩).bankChange 200).midiout = [[0xB5, 32, 72]] ∧
    ((VPiano.withInstrument 5 ⟨3, []⟩).bankChange 200).midiout = [] :=
  ⟨(bankChange_dispatch (VPiano.withInstrument 5 ⟨1, []⟩) 5 200 (by decide) rfl).1 rfl,
    (bankChange_dispatch (VPiano.withInstrument 5 ⟨2, []⟩) 5 200 (by decide) rfl).2.1 rfl,
    (bankChange_dispatch (VPiano.withInstrument 5 ⟨3, []⟩) 5 200 (by decide) rfl).2.2
      (by decide)⟩

/-- C10. Whatever the bank-select method (0, 1, 2, 3 or above, or no
instrument) and the bank value, after `bankChange(bank)` the last-bank record
of the selected channel is `bank` and the last-bank records of all other
channels are unchanged. -/
theorem bankChange_records_bank (s : VPiano) (bank : Int) :
    (s.bankChange bank).m_lastBank s.m_channel = bank ∧
    ∀ ch, ch ≠ s.m_channel → (s.bankChange bank).m_lastBank ch = s.m_lastBank ch := by
  rw [bankChange_m_lastBank]
  exact ⟨setAt_same _ _ _, fun ch h => setAt_other _ _ _ _ h⟩

/-! ### Masking, short messages, notes, program change, sysex -/

theorem dataByte_eq (x : Int) : toUChar x &&& MASK_SAFETY = (x % 128).toNat := by
  rw [and_MASK_SAFETY]
  unfold toUChar
  omega

theorem programChange_midiout (s : VPiano) (program : Int) :
    (s.programChange program).midiout =
      s.midiout ++ [[(STATUS_PROGRAM + (toUChar s.m_channel &&& MASK_CHANNEL)) % 256,
        (toUChar program &&& MASK_SAFETY) % 256]] := rfl

/-- C11. Data-byte masking: for every integer `x`, the data byte that the
outbound path derives from it, `static_cast<unsigned char>(x) & MASK_SAFETY`,
lies in 0..127, equals `x & 0x7F`, and is returned unchanged when it is cast
and masked a second time; it is the byte that `sendController` puts in both
data positions and `programChange` in its one data position. -/
theorem data_byte_masking (s : VPiano) (x : Int) :
    toUChar x &&& MASK_SAFETY < 128 ∧
    ((toUChar x &&& MASK_SAFETY : Nat) : Int) = andInt x 0x7F ∧
    toUChar ((toUChar x &&& MASK_SAFETY : Nat) : Int) &&& MASK_SAFETY
      = toUChar x &&& MASK_SAFETY ∧
    (∃ b0, (s.sendController x x).midiout =
      s.midiout ++ [[b0, toUChar x &&& MASK_SAFETY, toUChar x &&& MASK_SAFETY]]) ∧
    (∃ b0, (s.programChange x).midiout = s.midiout ++ [[b0, toUChar x &&& MASK_SAFETY]]) := by
  have hlt : toUChar x &&& MASK_SAFETY < 128 := by
    rw [dataByte_eq]
    omega
  have hmod : (toUChar x &&& MASK_SAFETY) % 256 = toUChar x &&& MASK_SAFETY := by omega
  refine ⟨hlt, ?_, ?_,
    ⟨(STATUS_CONTROLLER + (toUChar s.m_channel &&& MASK_CHANNEL)) % 256, ?_⟩,
    ⟨(STATUS_PROGRAM + (toUChar s.m_channel &&& MASK_CHANNEL)) % 256, ?_⟩⟩
  · rw [dataByte_eq, andInt_0x7F]
    omega
  · rw [dataByte_eq, dataByte_eq]
    omega
  · rw [sendController_midiout, hmod]
  · rw [programChange_midiout, hmod]

theorem and_MASK_STATUS_mod (b0 : Nat) : (b0 &&& MASK_STATUS) % 256 = b0 &&& MASK_STATUS := by
  have h : b0 &&& MASK_STATUS ≤ MASK_STATUS := Nat.and_le_right
  unfold MASK_STATUS at h ⊢
  omega

theorem midiCallback_short_posted (s : VPiano) (message : List Nat)
    (hlen : message.length < 3) : (midiCallback s message).state.posted = s.posted := by
  rcases message with _ | ⟨b0, _ | ⟨b1, _ | ⟨b2, rest⟩⟩⟩
  · simp [midiCallback, Outcome.state, midiThru_posted]
  · simp only [midiCallback, List.get?]
    split_ifs <;> simp [Outcome.state, midiThru_posted]
  · simp only [midiCallback, List.get?]
    split_ifs <;> simp [Outcome.state, midiThru_posted]
  · simp at hlen
    omega

theorem midiCallback_other_status (s : VPiano) (b0 : Nat) (rest : List Nat)
    (h1 : b0 &&& MASK_STATUS ≠ STATUS_NOTEON) (h2 : b0 &&& MASK_STATUS ≠ STATUS_NOTEOFF)
    (h3 : b0 &&& MASK_STATUS ≠ STATUS_CONTROLLER) (h4 : b0 &&& MASK_STATUS ≠ STATUS_BENDER) :
    midiCallback s (b0 :: rest) = .returned (s.midiThru (b0 :: rest)) := by
  simp only [midiCallback, List.get?, and_MASK_STATUS_mod]
  simp [h1, h2, h3, h4]

theorem midiCallback_three_bytes_returns (s : VPiano) (b0 b1 b2 : Nat) (rest : List Nat) :
    ∃ s', midiCallback s (b0 :: b1 :: b2 :: rest) = .returned s' := by
  simp only [midiCallback, List.get?]
  split_ifs <;> exact ⟨_, rfl⟩

/-- C12, counterexample. On the empty message, and on a one- or two-byte Note
On or Controller message on the filter channel, `midiCallback` does not
complete: `std::out_of_range`, thrown by `message->at`, leaves the function. -/
theorem midiCallback_short_message_escapes :
    (∃ s', midiCallback (VPiano.onChannel 0) [] = .out_of_range s') ∧
    (∃ s', midiCallback (VPiano.onChannel 0) [0x90, 60] = .out_of_range s') ∧
    (∃ s', midiCallback (VPiano.onChannel 0) [0xB0] = .out_of_range s') :=
  ⟨⟨_, rfl⟩, ⟨_, rfl⟩, ⟨_, rfl⟩⟩

/-- C12, amended. With channel `c` in 0..15 as the input filter: a message of
fewer than three bytes never makes `midiCallback` post an event, however the
run ends; and `midiCallback` returns normally, posting nothing, on every
non-empty message (one- and two-byte messages included) whose channel nibble
is not `c` or whose status nibble is none of Note On, Note Off, Controller and
Bender; it also returns normally on every message of three bytes or more. -/
theorem short_messages_post_nothing (s : VPiano) (c : Nat) (hc : c < 16)
    (hs : s.m_channel = c) :
    (∀ message : List Nat, message.length < 3 →
      (midiCallback s message).state.posted = s.posted) ∧
    (∀ (b0 : Nat) (rest : List Nat), b0 &&& MASK_CHANNEL ≠ c →
      ∃ s', midiCallback s (b0 :: rest) = .returned s' ∧ s'.posted = s.posted) ∧
    (∀ (b0 : Nat) (rest : List Nat), b0 &&& MASK_STATUS ≠ STATUS_NOTEON →
      b0 &&& MASK_STATUS ≠ STATUS_NOTEOFF → b0 &&& MASK_STATUS ≠ STATUS_CONTROLLER →
      b0 &&& MASK_STATUS ≠ STATUS_BENDER →
      ∃ s', midiCallback s (b0 :: rest) = .returned s' ∧ s'.posted = s.posted) ∧
    (∀ (b0 b1 b2 : Nat) (rest : List Nat),
      ∃ s', midiCallback s (b0 :: b1 :: b2 :: rest) = .returned s') :=
  ⟨fun message hlen => midiCallback_short_posted s message hlen,
    fun b0 rest hne => ⟨_, midiCallback_mismatch s c b0 rest hc hs hne, midiThru_posted s _⟩,
    fun b0 rest h1 h2 h3 h4 =>
      ⟨_, midiCallback_other_status s b0 rest h1 h2 h3 h4, midiThru_posted s _⟩,
    fun b0 b1 b2 rest => midiCallback_three_bytes_returns s b0 b1 b2 rest⟩

theorem short_messages_post_nothing_witness :
    (midiCallback (VPiano.onChannel 0) [0x90, 60]).state.posted = (VPiano.onChannel 0).posted ∧
    (∃ s', midiCallback (VPiano.onChannel 0) [0x91] = .returned s' ∧
      s'.posted = (VPiano.onChannel 0).posted) ∧
    (∃ s', midiCallback (VPiano.onChannel 0) [0xC0, 5] = .returned s' ∧
      s'.posted = (VPiano.onChannel 0).posted) :=
  have h := short_messages_post_nothing (VPiano.onChannel 0) 0 (by decide) rfl
  ⟨h.1 [0x90, 60] (by decide), h.2.1 0x91 [] (by decide),
    h.2.2.1 0xC0 [5] (by decide) (by decide) (by decide) (by decide)⟩

theorem noteGuard_iff (midiNote : Int) :
    andInt midiNote MASK_SAFETY = midiNote ↔ (0 ≤ midiNote ∧ midiNote < 128) := by
  have h : andInt midiNote MASK_SAFETY = midiNote % 128 := andInt_0x7F midiNote
  rw [h]
  omega

theorem velocityByte_eq (vel : Int) :
    (toUChar vel &&& MASK_SAFETY) % 256 = (andInt vel 0x7F).toNat := by
  rw [dataByte_eq, andInt_0x7F]
  omega

theorem noteOn_midiout (s : VPiano) (c : Nat) (midiNote : Int) (hc : c < 16)
    (hs : s.m_channel = c) :
    (s.noteOn midiNote).midiout =
      s.midiout ++ (if 0 ≤ midiNote ∧ midiNote < 128 then
        [[0x90 + c, midiNote.toNat, (andInt s.m_velocity 0x7F).toNat]] else []) := by
  unfold VPiano.noteOn
  simp only [noteGuard_iff]
  split_ifs with h
  · have hn : andInt midiNote MASK_SAFETY = midiNote := (noteGuard_iff midiNote).2 h
    have h1 : (STATUS_NOTEON + (toUChar (c : Int) &&& MASK_CHANNEL)) % 256 = 0x90 + c := by
      rw [toUChar_natCast c (by omega), and_MASK_CHANNEL]
      unfold STATUS_NOTEON
      omega
    have h2 : toUChar midiNote % 256 = midiNote.toNat := by
      unfold toUChar
      omega
    simp only [VPiano.messageWrapper, push_back, List.nil_append, List.cons_append, hn, hs, h1,
      h2, velocityByte_eq]
  · simp

theorem noteOff_midiout (s : VPiano) (c : Nat) (midiNote : Int) (hc : c < 16)
    (hs : s.m_channel = c) :
    (s.noteOff midiNote).midiout =
      s.midiout ++ (if 0 ≤ midiNote ∧ midiNote < 128 then
        [[0x80 + c, midiNote.toNat, (andInt s.m_velocity 0x7F).toNat]] else []) := by
  unfold VPiano.noteOff
  simp only [noteGuard_iff]
  split_ifs with h
  · have hn : andInt midiNote MASK_SAFETY = midiNote := (noteGuard_iff midiNote).2 h
    have h1 : (STATUS_NOTEOFF + (toUChar (c : Int) &&& MASK_CHANNEL)) % 256 = 0x80 + c := by
      rw [toUChar_natCast c (by omega), and_MASK_CHANNEL]
      unfold STATUS_NOTEOFF
      omega
    have h2 : toUChar midiNote % 256 = midiNote.toNat := by
      unfold toUChar
      omega
    simp only [VPiano.messageWrapper, push_back, List.nil_append, List.cons_append, hn, hs, h1,
      h2, velocityByte_eq]
  · simp

theorem noteOn_m_ctlState (s : VPiano) (midiNote : Int) :
    (s.noteOn midiNote).m_ctlState = s.m_ctlState := by
  unfold VPiano.noteOn
  simp only []
  split <;> rfl

theorem noteOff_m_ctlState (s : VPiano) (midiNote : Int) :
    (s.noteOff midiNote).m_ctlState = s.m_ctlState := by
  unfold VPiano.noteOff
  simp only []
  split <;> rfl

/-- C13, counterexample. A note outside 0..127 is rejected, not truncated:
`noteOn(128)` and `noteOff(128)` on channel 0 with velocity 100 transmit
nothing, where truncation would have sent `[0x90, 0, 100]` and
`[0x80, 0, 100]`. -/
theorem noteOn_out_of_range_rejected :
    ((VPiano.onChannel 0).noteOn 128).midiout = [] ∧
    ((VPiano.onChannel 0).noteOn 128).midiout ≠ [[0x90, 0, 100]] ∧
    ((VPiano.onChannel 0).noteOff 128).midiout = [] ∧
    ((VPiano.onChannel 0).noteOff 128).midiout ≠ [[0x80, 0, 100]] := by
  decide

/-- C13, amended. With channel `c` in 0..15 selected and any velocity setting:
for a note in 0..127, `noteOn(note)` transmits exactly one message
`[0x90 + c, note, velocity & 0x7F]` and `noteOff(note)` exactly one message
`[0x80 + c, note, velocity & 0x7F]`; for a note outside 0..127 the guard
`(midiNote & MASK_SAFETY) == midiNote` fails and neither transmits anything;
neither operation changes the controller store. -/
theorem note_messages_guarded (s : VPiano) (c : Nat) (note : Int) (hc : c < 16)
    (hs : s.m_channel = c) :
    (s.noteOn note).midiout =
      s.midiout ++ (if 0 ≤ note ∧ note < 128 then
        [[0x90 + c, note.toNat, (andInt s.m_velocity 0x7F).toNat]] else []) ∧
    (s.noteOff note).midiout =
      s.midiout ++ (if 0 ≤ note ∧ note < 128 then
        [[0x80 + c, note.toNat, (andInt s.m_velocity 0x7F).toNat]] else []) ∧
    (s.noteOn note).m_ctlState = s.m_ctlState ∧
    (s.noteOff note).m_ctlState = s.m_ctlState :=
  ⟨noteOn_midiout s c note hc hs, noteOff_midiout s c note hc hs,
    noteOn_m_ctlState s note, noteOff_m_ctlState s note⟩

theorem note_messages_guarded_witness :
    ((VPiano.onChannel 3).noteOn 60).midiout = [[0x93, 60, 100]] ∧
    ((VPiano.onChannel 3).noteOff 60).midiout = [[0x83, 60, 100]] ∧
    ((VPiano.onChannel 3).noteOn 200).midiout = [] :=
  ⟨(note_messages_guarded (VPiano.onChannel 3) 3 60 (by decide) rfl).1,
    (note_messages_guarded (VPiano.onChannel 3) 3 60 (by decide) rfl).2.1,
    (note_messages_guarded (VPiano.onChannel 3) 3 200 (by decide) rfl).1⟩

theorem programChange_message (s : VPiano) (c : Nat) (program : Int) (hc : c < 16)
    (hs : s.m_channel = c) :
    (s.programChange program).midiout =
      s.midiout ++ [[0xC0 + c, (andInt program 0x7F).toNat]] := by
  rw [programChange_midiout, hs, toUChar_natCast c (by omega), and_MASK_CHANNEL,
    velocityByte_eq]
  have h1 : (STATUS_PROGRAM + c % 16) % 256 = 0xC0 + c := by
    unfold STATUS_PROGRAM
    omega
  rw [h1]

/-- C14. With channel `c` in 0..15 selected, `programChange(program)` for any
integer `program` transmits exactly one two-byte message
`[0xC0 + c, program & 0x7F]`, sets the last-program record of channel `c` to
`program`, and changes neither the last-program record of another channel nor
the controller store. -/
theorem programChange_records_program (s : VPiano) (c : Nat) (program : Int)
    (hc : c < 16) (hs : s.m_channel = c) :
    (s.programChange program).midiout =
      s.midiout ++ [[0xC0 + c, (andInt program 0x7F).toNat]] ∧
    (s.programChange program).m_lastProg c = program ∧
    (∀ ch, ch ≠ (c : Int) → (s.programChange program).m_lastProg ch = s.m_lastProg ch) ∧
    (s.programChange program).m_ctlState = s.m_ctlState := by
  refine ⟨programChange_message s c program hc hs, ?_, ?_, rfl⟩
  · show setAt s.m_lastProg s.m_channel program c = program
    rw [hs, setAt_same]
  · intro ch h
    show setAt s.m_lastProg s.m_channel program ch = s.m_lastProg ch
    rw [hs, setAt_other _ _ _ _ h]

theorem programChange_records_program_witness :
    ((VPiano.onChannel 3).programChange 130).midiout = [[0xC3, 2]] ∧
    ((VPiano.onChannel 3).programChange 130).m_lastProg 3 = 130 :=
  ⟨(programChange_records_program (VPiano.onChannel 3) 3 130 (by decide) rfl).1,
    (programChange_records_program (VPiano.onChannel 3) 3 130 (by decide) rfl).2.1⟩

theorem foldl_push_back (data acc : List Nat) :
    data.foldl push_back acc = acc ++ data.map (fun b => b % 256) := by
  induction data generalizing acc with
  | nil => simp
  | cons b t ih => simp [List.foldl, ih, push_back]

theorem map_mod_bytes (data : List Nat) (h : ∀ b ∈ data, b < 256) :
    data.map (fun b => b % 256) = data := by
  induction data with
  | nil => rfl
  | cons b t ih =>
    have hb : b % 256 = b := Nat.mod_eq_of_lt (h b (List.mem_cons_self b t))
    have ht : ∀ x ∈ t, x < 256 := fun x hx => h x (List.mem_cons_of_mem b hx)
    simp [hb, ih ht]

theorem sendSysex_midiout (s : VPiano) (data : List Nat) (h : ∀ b ∈ data, b < 256) :
    (s.sendSysex data).midiout = s.midiout ++ [data] := by
  show s.midiout ++ [data.foldl push_back []] = s.midiout ++ [data]
  rw [foldl_push_back, List.nil_append, map_mod_bytes data h]

/-- C15. For every byte sequence `data` (bytes 0..255, any length, the empty
one included), `sendSysex(data)` hands exactly one message to the output and
its bytes are `data`: same length, same order, nothing masked, altered or
added. -/
theorem sendSysex_verbatim (s : VPiano) (data : List Nat) (h : ∀ b ∈ data, b < 256) :
    (s.sendSysex data).midiout = s.midiout ++ [data] :=
  sendSysex_midiout s data h

theorem sendSysex_verbatim_witness :
    ((VPiano.onChannel 3).sendSysex [0xF0, 0x7E, 0x7F, 0x09, 0x01, 0xF7]).midiout
      = [[0xF0, 0x7E, 0x7F, 0x09, 0x01, 0xF7]] ∧
    ((VPiano.onChannel 3).sendSysex []).midiout = [[]] :=
  ⟨sendSysex_verbatim (VPiano.onChannel 3) [0xF0, 0x7E, 0x7F, 0x09, 0x01, 0xF7] (by decide),
    sendSysex_verbatim (VPiano.onChannel 3) [] (by decide)⟩

/-! ### Extra controls, bender bytes, store and wire -/

theorem updateController_midiout (s : VPiano) (ctl val : Int) :
    (s.updateController ctl val).midiout = s.midiout := by
  unfold VPiano.updateController
  simp only []
  split <;> rfl

theorem sendController_and (s : VPiano) (c : Nat) (controller value : Int) (hc : c < 16)
    (hs : s.m_channel = c) :
    (s.sendController controller value).midiout =
      s.midiout ++ [[0xB0 + c, (andInt controller 0x7F).toNat, (andInt value 0x7F).toNat]] := by
  rw [sendController_byte s c controller value hc hs, andInt_0x7F, andInt_0x7F]

theorem slotControlClicked_midiout (s : VPiano) (w : Widget) (n : Int) (boolValue : Bool)
    (hw : w.ctlNumber = some n) (hn : n < 128) :
    (s.slotControlClicked w boolValue).midiout =
      (s.sendController n
        (if boolValue then qvToInt w.onValue else qvToInt w.offValue)).midiout := by
  unfold VPiano.slotControlClicked
  rw [hw]
  simp only [hn, if_true]
  exact updateController_midiout _ _ _

theorem slotControlClicked_sysex (s : VPiano) (w : Widget) (n : Int) (boolValue : Bool)
    (hw : w.ctlNumber = some n) (hn : ¬ n < 128) :
    s.slotControlClicked w boolValue = s.sendSysex w.sysexData := by
  unfold VPiano.slotControlClicked
  rw [hw]
  simp only [hn, if_false]

/-- C16. Sysex sentinel routing, with channel `c` in 0..15 selected. A click on
a control tagged with controller number 255 transmits exactly the stored sysex
bytes of the control as one message, hence no Controller message, and leaves
the controller store unchanged. A click on a control tagged with a number `n`
in 0..127 transmits exactly one Controller message for `n`; its value byte is
the on value of the control when clicked true and the off value when clicked
false, masked to seven bits as `sendController` does (the value itself when it
is in 0..127). -/
theorem sysex_sentinel_routing (s : VPiano) (wsys w : Widget) (c : Nat) (n : Int)
    (boolValue : Bool) (hc : c < 16) (hs : s.m_channel = c)
    (hsys : wsys.ctlNumber = some 255) (hbytes : ∀ b ∈ wsys.sysexData, b < 256)
    (hw : w.ctlNumber = some n) (hn0 : 0 ≤ n) (hn : n < 128) :
    (s.slotControlClicked wsys boolValue).midiout = s.midiout ++ [wsys.sysexData] ∧
    (s.slotControlClicked wsys boolValue).m_ctlState = s.m_ctlState ∧
    (s.slotControlClicked w true).midiout =
      s.midiout ++ [[0xB0 + c, n.toNat, (andInt (qvToInt w.onValue) 0x7F).toNat]] ∧
    (s.slotControlClicked w false).midiout =
      s.midiout ++ [[0xB0 + c, n.toNat, (andInt (qvToInt w.offValue) 0x7F).toNat]] := by
  have hctl : (andInt n 0x7F).toNat = n.toNat := by
    rw [andInt_0x7F]
    omega
  refine ⟨?_, ?_, ?_, ?_⟩
  · rw [slotControlClicked_sysex s wsys 255 boolValue hsys (by decide)]
    exact sendSysex_midiout s _ hbytes
  · rw [slotControlClicked_sysex s wsys 255 boolValue hsys (by decide)]
    rfl
  · rw [slotControlClicked_midiout s w n true hw hn, sendController_and s c _ _ hc hs, hctl]
    rfl
  · rw [slotControlClicked_midiout s w n false hw hn, sendController_and s c _ _ hc hs, hctl]
    rfl

theorem sysex_sentinel_routing_witness :
    (VPiano.volumeSelected.slotControlClicked Widget.sysexButton false).midiout
      = [[0xF0, 0x7E, 0x7F, 0x09, 0x01, 0xF7]] ∧
    (VPiano.volumeSelected.slotControlClicked Widget.sysexButton false).m_ctlState
      = VPiano.volumeSelected.m_ctlState ∧
    (VPiano.volumeSelected.slotControlClicked Widget.volumeButton true).midiout
      = [[0xB2, 7, 100]] ∧
    (VPiano.volumeSelected.slotControlClicked Widget.volumeButton false).midiout
      = [[0xB2, 7, 0]] :=
  sysex_sentinel_routing VPiano.volumeSelected Widget.sysexButton Widget.volumeButton 2 7 false
    (by decide) rfl rfl (by decide) rfl (by decide) (by decide)

/-- C17. For every integer bend value (8192 and any other value outside
[-8192, 8191] included) and every selected channel, `bender` transmits one
three-byte message whose two data bytes are the low seven bits of
`value + 8192` and the next seven bits, so both lie in 0..127. The two bytes
are what the macros `CALC_LSB` and `CALC_MSB` give; `bender` itself applies no
mask. -/
theorem bender_data_bytes_masked (s : VPiano) (value : Int) :
    (s.bender value).midiout =
      s.midiout ++ [[(STATUS_BENDER + (toUChar s.m_channel &&& MASK_CHANNEL)) % 256,
        ((value + 8192) % 128).toNat, ((value + 8192) / 128 % 128).toNat]] ∧
    ((value + 8192) % 128).toNat < 128 ∧ ((value + 8192) / 128 % 128).toNat < 128 := by
  refine ⟨?_, by omega, by omega⟩
  rw [bender_midiout, CALC_LSB_eq, CALC_MSB_eq]
  have h2 : toUChar ((value + BENDER_MID) % 128) % 256 = ((value + 8192) % 128).toNat := by
    unfold toUChar BENDER_MID
    omega
  have h3 : toUChar ((value + BENDER_MID) / 128 % 128) % 256
      = ((value + 8192) / 128 % 128).toNat := by
    unfold toUChar BENDER_MID
    omega
  rw [h2, h3]

/-- C19, counterexample. On channel 5 with method 0, `bankChange(200)` sends
MSB 1 as controller 0 and LSB 72 as controller 32, and the store holds neither:
both entries are still absent. The same holds for the one message of method 1
and of method 2. -/
theorem bankChange_store_not_written :
    ((VPiano.onChannel 5).bankChange 200).midiout = [[0xB5, 0, 1], [0xB5, 32, 72]] ∧
    (((VPiano.onChannel 5).bankChange 200).m_ctlState 5).find 0 = none ∧
    (((VPiano.onChannel 5).bankChange 200).m_ctlState 5).find 32 = none ∧
    ((VPiano.withInstrument 5 ⟨1, []⟩).bankChange 200).midiout = [[0xB5, 0, 72]] ∧
    (((VPiano.withInstrument 5 ⟨1, []⟩).bankChange 200).m_ctlState 5).find 0 = none ∧
    ((VPiano.withInstrument 5 ⟨2, []⟩).bankChange 200).midiout = [[0xB5, 32, 72]] ∧
    (((VPiano.withInstrument 5 ⟨2, []⟩).bankChange 200).m_ctlState 5).find 32 = none := by
  decide

/-- C19, amended. `bankChange` never writes the controller store: for every
bank, bank-select method and selected channel the store after
`bankChange(bank)` is the store before it. The Controller messages of the bank
change are sent with `sendController` alone, and the bank is recorded in the
last-bank record only. -/
theorem bankChange_keeps_store (s : VPiano) (bank : Int) :
    (s.bankChange bank).m_ctlState = s.m_ctlState := by
  unfold VPiano.bankChange
  simp only []
  split_ifs <;> rfl

/-! ### Saving and restoring the store -/

theorem QMap.mem_keys_insert (m : QMap) (k v x : Int)
    (hx : x ∈ (m.insert k v).map Prod.fst) : x = k ∨ x ∈ m.map Prod.fst := by
  induction m with
  | nil =>
    simp [QMap.insert] at hx
    exact Or.inl hx
  | cons p t ih =>
    obtain ⟨k', v'⟩ := p
    unfold QMap.insert at hx
    split_ifs at hx with h1 h2
    · simp only [List.map_cons, List.mem_cons] at hx ⊢
      exact hx
    · simp only [List.map_cons, List.mem_cons] at hx ⊢
      rcases hx with hx | hx
      · exact Or.inl hx
      · exact Or.inr (Or.inr hx)
    · simp only [List.map_cons, List.mem_cons] at hx ⊢
      rcases hx with hx | hx
      · exact Or.inr (Or.inl hx)
      · rcases ih hx with h | h
        · exact Or.inl h
        · exact Or.inr (Or.inr h)

theorem QMap.keysSorted_insert (m : QMap) (k v : Int) (h : m.keysSorted) :
    (m.insert k v).keysSorted := by
  induction m with
  | nil => simp [QMap.insert, QMap.keysSorted]
  | cons p t ih =>
    obtain ⟨k', v'⟩ := p
    unfold QMap.keysSorted at h ih ⊢
    simp only [List.map_cons, List.pairwise_cons] at h
    obtain ⟨hlt, hsorted⟩ := h
    unfold QMap.insert
    split_ifs with h1 h2
    · simp only [List.map_cons, List.pairwise_cons, List.mem_cons]
      refine ⟨?_, hlt, hsorted⟩
      intro b hb
      rcases hb with hb | hb
      · rw [hb]
        exact h1
      · exact lt_trans h1 (hlt b hb)
    · simp only [List.map_cons, List.pairwise_cons]
      refine ⟨?_, hsorted⟩
      intro b hb
      rw [h2]
      exact hlt b hb
    · simp only [List.map_cons, List.pairwise_cons]
      refine ⟨?_, ih hsorted⟩
      intro b hb
      rcases QMap.mem_keys_insert t k v b hb with hb | hb
      · rw [hb]
        omega
      · exact hlt b hb

theorem QMap.find_of_not_mem_keys (m : QMap) (k : Int) (h : k ∉ m.map Prod.fst) :
    m.find k = none := by
  induction m with
  | nil => rfl
  | cons p t ih =>
    obtain ⟨k', v'⟩ := p
    simp only [List.map_cons, List.mem_cons, not_or] at h
    simp [QMap.find, h.1, ih h.2]

theorem QMap.find_head_of_sorted (a b : Int) (t : QMap)
    (h : QMap.keysSorted ((a, b) :: t)) : QMap.find t a = none := by
  apply QMap.find_of_not_mem_keys
  unfold QMap.keysSorted at h
  simp only [List.map_cons, List.pairwise_cons] at h
  intro hmem
  exact lt_irrefl a (h.1 a hmem)

theorem QMap.keysSorted_tail (p : Int × Int) (t : QMap)
    (h : QMap.keysSorted (p :: t)) : QMap.keysSorted t := by
  unfold QMap.keysSorted at h ⊢
  simp only [List.map_cons, List.pairwise_cons] at h
  exact h.2

theorem keysSorted_foldl_insert (l : List (Int × Int)) (acc : QMap) (h : acc.keysSorted) :
    QMap.keysSorted (l.foldl (fun m kv => m.insert kv.1 kv.2) acc) := by
  induction l generalizing acc with
  | nil => exact h
  | cons p t ih => exact ih _ (QMap.keysSorted_insert acc p.1 p.2 h)

theorem find_foldl_insert (l : List (Int × Int)) (acc : QMap) (k : Int)
    (hl : QMap.keysSorted l) :
    QMap.find (l.foldl (fun m kv => m.insert kv.1 kv.2) acc) k =
      if (QMap.find l k).isSome then QMap.find l k else acc.find k := by
  induction l generalizing acc with
  | nil => simp [QMap.find]
  | cons p t ih =>
    obtain ⟨a, b⟩ := p
    have hhead := QMap.find_head_of_sorted a b t hl
    simp only [List.foldl]
    rw [ih _ (QMap.keysSorted_tail _ _ hl), QMap.find_insert]
    by_cases hk : k = a
    · subst hk
      simp [QMap.find, hhead]
    · simp [QMap.find, hk]

theorem find_restoreLoop (l : List (Int × Int)) (store : QMap) (k : Int)
    (hl : QMap.keysSorted l) :
    (restoreLoop store l).find k =
      if (store.find k).isSome then
        (if (QMap.find l k).isSome then QMap.find l k else store.find k)
      else none := by
  induction l generalizing store with
  | nil =>
    simp only [restoreLoop, QMap.find]
    cases h : store.find k <;> simp
  | cons p t ih =>
    obtain ⟨a, b⟩ := p
    have hhead := QMap.find_head_of_sorted a b t hl
    simp only [restoreLoop]
    rw [ih _ (QMap.keysSorted_tail _ _ hl)]
    by_cases hk : k = a
    · subst hk
      by_cases hs : (store.find k).isSome
      · simp [QMap.find, hhead, hs, QMap.find_insert]
      · simp [QMap.find, hhead, hs]
    · by_cases hs : (store.find a).isSome
      · simp [QMap.find, hk, hs, QMap.find_insert]
      · simp [QMap.find, hk, hs]

theorem initControllers_m_ctlState_at (s : VPiano) (ch : Int) :
    (s.initControllers ch).m_ctlState ch =
      VPiano.initControlsLoop (s.m_ctlState ch) s.definedControls := by
  unfold VPiano.initControllers VPiano.definedControls
  cases s.m_ins with
  | none => rfl
  | some ins => exact setAt_same _ _ _

theorem initControllers_m_ctlState_other (s : VPiano) (ch ch' : Int) (h : ch' ≠ ch) :
    (s.initControllers ch).m_ctlState ch' = s.m_ctlState ch' := by
  unfold VPiano.initControllers
  cases s.m_ins with
  | none => rfl
  | some ins => exact setAt_other _ _ _ _ h

theorem initControllers_m_ins (s : VPiano) (ch : Int) :
    (s.initControllers ch).m_ins = s.m_ins := by
  unfold VPiano.initControllers
  split <;> rfl

theorem initControllers_m_ctlSettings (s : VPiano) (ch : Int) :
    (s.initControllers ch).m_ctlSettings = s.m_ctlSettings := by
  unfold VPiano.initControllers
  cases s.m_ins with
  | none => rfl
  | some ins => rfl

theorem definedControls_congr (s t : VPiano) (h : t.m_ins = s.m_ins) :
    t.definedControls = s.definedControls := by
  unfold VPiano.definedControls
  rw [h]

theorem applyInitialSettingsChannel_m_ins (s : VPiano) (ch : Int) :
    (s.applyInitialSettingsChannel ch).m_ins = s.m_ins :=
  initControllers_m_ins s ch

theorem applyInitialSettingsChannel_m_ctlSettings (s : VPiano) (ch : Int) :
    (s.applyInitialSettingsChannel ch).m_ctlSettings = s.m_ctlSettings :=
  initControllers_m_ctlSettings s ch

theorem applyInitialSettingsChannel_at (s : VPiano) (ch : Int) :
    (s.applyInitialSettingsChannel ch).m_ctlState ch =
      restoreLoop (VPiano.initControlsLoop (s.m_ctlState ch) s.definedControls)
        (s.m_ctlSettings ch) := by
  show setAt _ ch _ ch = _
  rw [setAt_same, initControllers_m_ctlState_at, initControllers_m_ctlSettings]

theorem applyInitialSettingsChannel_other (s : VPiano) (ch ch' : Int) (h : ch' ≠ ch) :
    (s.applyInitialSettingsChannel ch).m_ctlState ch' = s.m_ctlState ch' := by
  show setAt _ ch _ ch' = _
  rw [setAt_other _ _ _ _ h, initControllers_m_ctlState_other s ch ch' h]

theorem foldl_applyInitialSettingsChannel (l : List Int) (s : VPiano) :
    (l.foldl VPiano.applyInitialSettingsChannel s).m_ins = s.m_ins ∧
    (l.foldl VPiano.applyInitialSettingsChannel s).m_ctlSettings = s.m_ctlSettings ∧
    ∀ ch,
      (ch ∉ l → (l.foldl VPiano.applyInitialSettingsChannel s).m_ctlState ch = s.m_ctlState ch) ∧
      (l.Nodup → ch ∈ l →
        (l.foldl VPiano.applyInitialSettingsChannel s).m_ctlState ch =
          restoreLoop (VPiano.initControlsLoop (s.m_ctlState ch) s.definedControls)
            (s.m_ctlSettings ch)) := by
  induction l generalizing s with
  | nil =>
    refine ⟨rfl, rfl, fun ch => ⟨fun _ => rfl, fun _ h => ?_⟩⟩
    simp at h
  | cons a t ih =>
    obtain ⟨h1, h2, h3⟩ := ih (s.applyInitialSettingsChannel a)
    simp only [List.foldl]
    refine ⟨?_, ?_, fun ch => ⟨?_, ?_⟩⟩
    · rw [h1, applyInitialSettingsChannel_m_ins]
    · rw [h2, applyInitialSettingsChannel_m_ctlSettings]
    · intro hch
      simp only [List.mem_cons, not_or] at hch
      rw [(h3 ch).1 hch.2, applyInitialSettingsChannel_other s a ch hch.1]
    · intro hnd hch
      simp only [List.nodup_cons] at hnd
      by_cases hca : ch = a
      · subst hca
        rw [(h3 ch).1 hnd.1, applyInitialSettingsChannel_at]
      · have hmem : ch ∈ t := by
          simp only [List.mem_cons] at hch
          rcases hch with h | h
          · exact absurd h hca
          · exact h
        rw [(h3 ch).2 hnd.2 hmem, applyInitialSettingsChannel_other s a ch hca,
          applyInitialSettingsChannel_m_ctlSettings,
          definedControls_congr s _ (applyInitialSettingsChannel_m_ins s a)]

theorem foldl_readSettingsChannel (settings : Settings) (l : List Int) (s : VPiano) :
    (l.foldl (VPiano.readSettingsChannel settings) s).m_ins = s.m_ins ∧
    (l.foldl (VPiano.readSettingsChannel settings) s).m_ctlState = s.m_ctlState ∧
    ∀ ch,
      (ch ∉ l →
        (l.foldl (VPiano.readSettingsChannel settings) s).m_ctlSettings ch
          = s.m_ctlSettings ch) ∧
      (l.Nodup → ch ∈ l →
        (l.foldl (VPiano.readSettingsChannel settings) s).m_ctlSettings ch =
          (settings.controllers ch).foldl (fun m kv => m.insert kv.1 kv.2)
            (s.m_ctlSettings ch)) := by
  induction l generalizing s with
  | nil =>
    refine ⟨rfl, rfl, fun ch => ⟨fun _ => rfl, fun _ h => ?_⟩⟩
    simp at h
  | cons a t ih =>
    obtain ⟨h1, h2, h3⟩ := ih (VPiano.readSettingsChannel settings s a)
    simp only [List.foldl]
    refine ⟨?_, ?_, fun ch => ⟨?_, ?_⟩⟩
    · rw [h1]
      rfl
    · rw [h2]
      rfl
    · intro hch
      simp only [List.mem_cons, not_or] at hch
      rw [(h3 ch).1 hch.2]
      exact setAt_other _ _ _ _ hch.1
    · intro hnd hch
      simp only [List.nodup_cons] at hnd
      by_cases hca : ch = a
      · subst hca
        rw [(h3 ch).1 hnd.1]
        exact setAt_same _ _ _
      · have hmem : ch ∈ t := by
          simp only [List.mem_cons] at hch
          rcases hch with h | h
          · exact absurd h hca
          · exact h
        rw [(h3 ch).2 hnd.2 hmem]
        have : (VPiano.readSettingsChannel settings s a).m_ctlSettings ch = s.m_ctlSettings ch :=
          setAt_other _ _ _ _ hca
        rw [this]

theorem channels_nodup : channels.Nodup := by decide

theorem mem_channels (c : Nat) (hc : c < 16) : (c : Int) ∈ channels := by
  unfold channels MIDICHANNELS
  simp only [List.mem_map, List.mem_range]
  exact ⟨c, hc, rfl⟩

theorem applyInitialSettings_m_ctlState (s : VPiano) :
    s.applyInitialSettings.m_ctlState =
      (channels.foldl VPiano.applyInitialSettingsChannel s).m_ctlState := by
  unfold VPiano.applyInitialSettings
  simp only []
  split <;> rfl

theorem startup_store (prev s0 : VPiano) (c : Nat) (hc : c < 16) :
    (s0.readSettings prev.writeSettings).applyInitialSettings.m_ctlState c =
      restoreLoop (VPiano.initControlsLoop (s0.m_ctlState c) s0.definedControls)
        ((prev.m_ctlState c).foldl (fun (m : QMap) kv => m.insert kv.1 kv.2)
          (s0.m_ctlSettings c)) := by
  have hmem := mem_channels c hc
  obtain ⟨r1, r2, r3⟩ := foldl_readSettingsChannel prev.writeSettings channels s0
  obtain ⟨_, _, a3⟩ := foldl_applyInitialSettingsChannel channels
    (s0.readSettings prev.writeSettings)
  have hw : prev.writeSettings.controllers c = prev.m_ctlState c := by
    simp [VPiano.writeSettings, hmem]
  rw [applyInitialSettings_m_ctlState, (a3 c).2 channels_nodup hmem]
  unfold VPiano.readSettings
  rw [(r3 c).2 channels_nodup hmem, r2, definedControls_congr s0 _ r1, hw]

/-- C20, counterexample. The previous session saved 90 for controller 7 and 40
for controller 91 on channel 0. At start-up with no instrument loaded the
restore leaves controller 7 absent from the store; with an instrument that
defines controller 7 only, controller 7 is restored and controller 91 is not. -/
theorem startup_restore_skips_undefined :
    (VPiano.previousSession.m_ctlState 0).find 7 = some 90 ∧
    (VPiano.previousSession.m_ctlState 0).find 91 = some 40 ∧
    ((VPiano.defaultState.readSettings
      VPiano.previousSession.writeSettings).applyInitialSettings.m_ctlState 0).find 7 = none ∧
    (((VPiano.withInstrument 0 ⟨0, [7]⟩).readSettings
      VPiano.previousSession.writeSettings).applyInitialSettings.m_ctlState 0).find 7
        = some 90 ∧
    (((VPiano.withInstrument 0 ⟨0, [7]⟩).readSettings
      VPiano.previousSession.writeSettings).applyInitialSettings.m_ctlState 0).find 91
        = none := by
  decide

/-- C20, amended. Start-up restore of a channel `c` in 0..15: the previous
session exports its store of `c` with `writeSettings`, the new window, whose
store and saved-settings map of `c` are still empty, reads it with
`readSettings` and runs `applyInitialSettings`. Afterwards the store holds the
saved value for every saved controller that the active instrument defines; a
controller that the instrument does not define is absent from the store,
saved or not, so nothing is restored when no instrument is loaded. The restore
follows the reset `initControllers` and writes only keys that the reset put in
the store. -/
theorem startup_restore_defined_controls (prev s0 : VPiano) (c : Nat) (hc : c < 16)
    (hprev : (prev.m_ctlState c).keysSorted)
    (hstore : s0.m_ctlState c = []) (hsettings : s0.m_ctlSettings c = []) :
    (∀ k v, (prev.m_ctlState c).find k = some v → k ∈ s0.definedControls →
      ((s0.readSettings prev.writeSettings).applyInitialSettings.m_ctlState c).find k
        = some v) ∧
    (∀ k, k ∉ s0.definedControls →
      ((s0.readSettings prev.writeSettings).applyInitialSettings.m_ctlState c).find k
        = none) := by
  have hnil : QMap.keysSorted [] := List.Pairwise.nil
  have hsorted := keysSorted_foldl_insert (prev.m_ctlState c) [] hnil
  rw [startup_store prev s0 c hc, hstore, hsettings]
  constructor
  · intro k v hk hdef
    rw [find_restoreLoop _ _ _ hsorted, find_initControlsLoop, if_pos hdef,
      find_foldl_insert _ _ _ hprev, hk]
    simp
  · intro k hdef
    rw [find_restoreLoop _ _ _ hsorted, find_initControlsLoop, if_neg hdef]
    simp [QMap.find]

theorem startup_restore_defined_controls_witness :
    (((VPiano.withInstrument 0 ⟨0, [7]⟩).readSettings
      VPiano.previousSession.writeSettings).applyInitialSettings.m_ctlState (0 : Nat)).find 7
        = some 90 ∧
    (((VPiano.withInstrument 0 ⟨0, [7]⟩).readSettings
      VPiano.previousSession.writeSettings).applyInitialSettings.m_ctlState (0 : Nat)).find 91
        = none :=
  have h := startup_restore_defined_controls VPiano.previousSession
    (VPiano.withInstrument 0 ⟨0, [7]⟩) 0 (by decide)
    (by unfold QMap.keysSorted; decide) rfl rfl
  ⟨h.1 7 90 (by decide) (by decide), h.2 91 (by decide)⟩

/-! ### Input port connections -/

theorem callbackAfter_append (a b : List InCall) (cb : Bool) :
    callbackAfter cb (a ++ b) = callbackAfter (callbackAfter cb a) b := by
  induction a generalizing cb with
  | nil => rfl
  | cons x t ih => cases x <;> simp [callbackAfter, ih]

theorem noCloseWhileCallback_append (a b : List InCall) (cb : Bool) :
    noCloseWhileCallback cb (a ++ b) =
      (noCloseWhileCallback cb a && noCloseWhileCallback (callbackAfter cb a) b) := by
  induction a generalizing cb with
  | nil => simp [noCloseWhileCallback, callbackAfter]
  | cons x t ih => cases x <;> simp [noCloseWhileCallback, callbackAfter, ih, Bool.and_assoc]

theorem consistent_applyConnections (k : Connections) (d : MidiSetup) (h : k.consistent) :
    (k.applyConnections d).consistent := by
  obtain ⟨h1, h2, h3⟩ := h
  unfold Connections.applyConnections
  simp only []
  split_ifs <;>
    simp_all [Connections.consistent, Connections.cancelCallback, Connections.closePort,
      Connections.openPort, Connections.setCallback, callbackAfter_append,
      noCloseWhileCallback_append, callbackAfter, noCloseWhileCallback]

theorem consistent_destructor (k : Connections) (outputThrows : Bool) (h : k.consistent) :
    (k.destructor outputThrows).consistent := by
  obtain ⟨h1, h2, h3⟩ := h
  unfold Connections.destructor
  simp only []
  split_ifs <;>
    simp_all [Connections.consistent, Connections.cancelCallback, Connections.closePort,
      callbackAfter_append, noCloseWhileCallback_append, callbackAfter, noCloseWhileCallback]

theorem consistent_foldl_applyConnections (ds : List MidiSetup) (k : Connections)
    (h : k.consistent) : (ds.foldl Connections.applyConnections k).consistent := by
  induction ds generalizing k with
  | nil => exact h
  | cons d t ih => exact ih _ (consistent_applyConnections k d h)

/-- C21. Cancel-before-close ordering on the input port. From any connection
state in which the calls made on `m_midiin` so far never closed the port while
a callback was installed and `m_inputActive` is true exactly when a callback is
installed, every sequence of runs of `applyConnections` (whatever the dialog
answers and whichever port call throws) keeps both properties, and so does the
destructor run after them: `closePort` is only ever called after
`cancelCallback` with no `setCallback` in between, and `m_inputActive` stays
equal to the callback flag. -/
theorem cancel_before_close (k : Connections) (ds : List MidiSetup) (outputThrows : Bool)
    (h : k.consistent) :
    (ds.foldl Connections.applyConnections k).consistent ∧
    ((ds.foldl Connections.applyConnections k).destructor outputThrows).consistent :=
  ⟨consistent_foldl_applyConnections ds k h,
    consistent_destructor _ outputThrows (consistent_foldl_applyConnections ds k h)⟩

theorem cancel_before_close_witness :
    Connections.afterInitMidi.consistent ∧
    (([MidiSetup.select 0 true, MidiSetup.select 1 false].foldl Connections.applyConnections
      Connections.afterInitMidi).destructor false).inCalls =
      [.setCallback, .cancelCallback, .openPort 0, .setCallback, .cancelCallback, .closePort,
        .closePort] ∧
    (([MidiSetup.select 0 true, MidiSetup.select 1 false].foldl Connections.applyConnections
      Connections.afterInitMidi).destructor false).consistent :=
  have h0 : Connections.afterInitMidi.consistent := by
    unfold Connections.consistent
    decide
  ⟨h0, by decide,
    (cancel_before_close Connections.afterInitMidi
      [MidiSetup.select 0 true, MidiSetup.select 1 false] false h0).2⟩

/-! ### Reset of all controllers -/

/-- C22, evaluation at the failing input. With no instrument loaded (or an
instrument with an empty controller list) the controller combo box is empty, so
`itemData(-1).toInt()` is 0 and the read `m_ctlState[m_channel][0]` inserts the
entry 0 with value 0: after `resetAllControllers` the store of channel 0 is
`[(0, 0)]` while `initControllers(0)` alone leaves it empty. The one message
sent is `[0xB0, 121, 0]`. -/
theorem resetAllControllers_adds_selected_key :
    VPiano.defaultState.resetAllControllers.midiout = [[0xB0, 121, 0]] ∧
    VPiano.defaultState.m_ctlState 0 = [] ∧
    (VPiano.defaultState.initControllers 0).m_ctlState 0 = [] ∧
    VPiano.defaultState.resetAllControllers.m_ctlState 0 = [(0, 0)] ∧
    ((VPiano.withInstrument 0 ⟨0, []⟩).initControllers 0).m_ctlState 0 = [] ∧
    (VPiano.withInstrument 0 ⟨0, []⟩).resetAllControllers.m_ctlState 0 = [(0, 0)] := by
  decide

/-- C23, evaluation at the failing input. Volume (controller 7) is selected,
the store holds 30 for it and the instrument defines it: after
`resetAllControllers` the store holds the default 100, the slider of the extra
controls tagged 7 shows 100, and the main controller knob still shows 30, the
value read before `initControllers` ran. -/
theorem resetAllControllers_knob_shows_old_value :
    (VPiano.volumeLowered.m_ctlState 0).find 7 = some 30 ∧
    (VPiano.volumeLowered.resetAllControllers.m_ctlState 0).find 7 = some 100 ∧
    VPiano.volumeLowered.resetAllControllers.toolBarExtra.map Widget.value = [some 100] ∧
    VPiano.volumeLowered.resetAllControllers.m_Control = 30 := by
  decide

/-! ### Unrecognized kinds, consumption of events -/

/-- C24. Unrecognized kinds are ignored: on every message of at least one byte
whose status nibble `byte0 & 0xF0` is none of Note Off (0x80), Note On (0x90),
Controller (0xB0) and Bender (0xE0), Program Change (0xC0) included,
`midiCallback` returns normally and posts no event, whatever the channel
nibble, the filter channel and the length of the message are. -/
theorem unrecognized_kinds_ignored (s : VPiano) (b0 : Nat) (rest : List Nat)
    (h1 : b0 &&& MASK_STATUS ≠ STATUS_NOTEOFF) (h2 : b0 &&& MASK_STATUS ≠ STATUS_NOTEON)
    (h3 : b0 &&& MASK_STATUS ≠ STATUS_CONTROLLER) (h4 : b0 &&& MASK_STATUS ≠ STATUS_BENDER) :
    ∃ s', midiCallback s (b0 :: rest) = .returned s' ∧ s'.posted = s.posted :=
  ⟨_, midiCallback_other_status s b0 rest h2 h1 h3 h4, midiThru_posted s _⟩

theorem unrecognized_kinds_ignored_witness :
    (∃ s', midiCallback (VPiano.onChannel 3) [0xC3, 5] = .returned s' ∧
      s'.posted = (VPiano.onChannel 3).posted) ∧
    (∃ s', midiCallback (VPiano.onChannel 3) [0xD3] = .returned s' ∧
      s'.posted = (VPiano.onChannel 3).posted) :=
  ⟨unrecognized_kinds_ignored (VPiano.onChannel 3) 0xC3 [5]
      (by decide) (by decide) (by decide) (by decide),
    unrecognized_kinds_ignored (VPiano.onChannel 3) 0xD3 []
      (by decide) (by decide) (by decide) (by decide)⟩

theorem updateExtraController_m_ctlState (s : VPiano) (ctl val : Int) :
    (s.updateExtraController ctl val).m_ctlState = s.m_ctlState := rfl

theorem customEvent_controller_m_channel (s : VPiano) (ctl val : Int) :
    ((s.updateController ctl val).updateExtraController ctl val).m_channel = s.m_channel :=
  updateController_m_channel s ctl val

/-- C25. Consuming a decoded `ControllerEvent(ctl, val)` in `customEvent`
writes `val` into the store at (`m_channel` as it is when the event is
consumed, `ctl`), whatever channel the message was filtered on when it was
received, and leaves every other (channel, controller) entry, the last-bank
records and the last-program records unchanged; consuming a `NoteOnEvent`,
`NoteOffEvent` or `BenderEvent` leaves the whole store unchanged. -/
theorem customEvent_store_effect (s : VPiano) (ctl val note : Nat) (value : Int) :
    storeWrittenAt s (s.customEvent (.ControllerEvent ctl val)) s.m_channel ctl val ∧
    (s.customEvent (.ControllerEvent ctl val)).m_lastBank = s.m_lastBank ∧
    (s.customEvent (.ControllerEvent ctl val)).m_lastProg = s.m_lastProg ∧
    (s.customEvent (.NoteOnEvent note)).m_ctlState = s.m_ctlState ∧
    (s.customEvent (.NoteOffEvent note)).m_ctlState = s.m_ctlState ∧
    (s.customEvent (.BenderEvent value)).m_ctlState = s.m_ctlState := by
  refine ⟨?_, ?_, ?_, rfl, rfl, rfl⟩
  · show storeWrittenAt s
      (((s.updateController ctl val).updateExtraController ctl val).setCtlState
        ((s.updateController ctl val).updateExtraController ctl val).m_channel ctl val)
      s.m_channel ctl val
    rw [customEvent_controller_m_channel]
    exact storeWrittenAt_setCtlState s _ _ _ _ (updateController_m_ctlState s ctl val)
  · show (s.updateController ctl val).m_lastBank = s.m_lastBank
    unfold VPiano.updateController
    simp only []
    split <;> rfl
  · show (s.updateController ctl val).m_lastProg = s.m_lastProg
    unfold VPiano.updateController
    simp only []
    split <;> rfl
